import Mathlib

/-!
# Verification of the OverMind / Axiom City simulation core

Shallow embedding of the city-simulation state machine of this repository:
the building catalog (`src/Axiom City/constants.tsx`), the action validator
`performAction` (`src/Axiom City/App.tsx`), the per-tick economic simulator
`updateSimulation` and the pollution stepper `simulateEnvironment`
(`src/Axiom City/utils/simulation.ts`), and the agent-arbiter fallback logic
(`callLocalAI` / `generateGameAction` / `mockGameAction` in the service code).

JavaScript numbers are modelled as `ℚ`; `Math.floor` is `Int.floor`,
`Math.round` is `⌊· + 1/2⌋` (JS rounds half up).  The single transcendental
operation `Math.pow(population, 1.1)` is passed in as a function parameter,
and every call to `Math.random()` is passed in as an explicit input.
-/

/-- Building types, from `types.ts` (enum `BuildingType`). -/
inductive BuildingType where
  | None | Road | Residential | Commercial | Industrial | Park
  | School | Hospital | Police | FireStation | GoldMine | Apartment
  | Mansion | Water | Bridge
  | MegaMall | SpacePort | University | Stadium | Casino | ResearchCentre
deriving DecidableEq

/-- Macro-economic events, from `types.ts` (enum `EconomicEvent`). -/
inductive EconomicEvent where
  | None | Boom | Recession | Strike | Audit | Festival
deriving DecidableEq

/-- Catalog row, from `types.ts` (`BuildingConfig`).  The optional `crime` and
`pollution` coefficients are total here with default `0`; the source guards
every read with a JS truthiness test (`if (config.crime)`), which skips
exactly the values that are `undefined` or `0`, so the guarded reads agree. -/
structure BuildingConfig where
  type : BuildingType
  cost : ℚ
  popGen : ℚ
  incomeGen : ℚ
  crime : ℚ := 0
  pollution : ℚ := 0
  maxAllowed : Option ℚ := none
deriving DecidableEq

/-- The immutable building catalog, from `constants.tsx` (`BUILDINGS`). -/
def BUILDINGS : BuildingType → BuildingConfig
  | .None => { type := .None, cost := 0, popGen := 0, incomeGen := 0 }
  | .Road => { type := .Road, cost := 10, popGen := 0, incomeGen := 0 }
  | .Residential => { type := .Residential, cost := 200, popGen := 10, incomeGen := 0 }
  | .Commercial => { type := .Commercial, cost := 200, popGen := 0, incomeGen := 15 }
  | .Industrial => { type := .Industrial, cost := 400, popGen := 0, incomeGen := 40,
                     pollution := 15, crime := 5 }
  | .Park => { type := .Park, cost := 50, popGen := 1, incomeGen := 0, pollution := -10 }
  | .School => { type := .School, cost := 500, popGen := 0, incomeGen := -10, crime := -2 }
  | .Hospital => { type := .Hospital, cost := 1000, popGen := 0, incomeGen := -20 }
  | .Police => { type := .Police, cost := 400, popGen := 0, incomeGen := -10, crime := -25 }
  | .FireStation => { type := .FireStation, cost := 450, popGen := 0, incomeGen := -15,
                      crime := -5 }
  | .GoldMine => { type := .GoldMine, cost := 1500, popGen := 0, incomeGen := 600,
                   crime := 0, pollution := 10 }
  | .Apartment => { type := .Apartment, cost := 100, popGen := 2, incomeGen := 0, crime := 2 }
  | .Mansion => { type := .Mansion, cost := 1000, popGen := 25, incomeGen := 0, crime := -5 }
  | .Water => { type := .Water, cost := 0, popGen := 0, incomeGen := 0 }
  | .Bridge => { type := .Bridge, cost := 150, popGen := 0, incomeGen := 0 }
  | .Casino => { type := .Casino, cost := 3000, popGen := 0, incomeGen := 300, crime := 30 }
  | .MegaMall => { type := .MegaMall, cost := 12000, popGen := 0, incomeGen := 400,
                   crime := 10, pollution := 5, maxAllowed := some 1 }
  | .SpacePort => { type := .SpacePort, cost := 250000, popGen := 0, incomeGen := 5000,
                    crime := 5, maxAllowed := some 1 }
  | .University => { type := .University, cost := 8000, popGen := 0, incomeGen := -100,
                     crime := -10, maxAllowed := some 1 }
  | .Stadium => { type := .Stadium, cost := 14000, popGen := 0, incomeGen := 100,
                  crime := 15, maxAllowed := some 1 }
  | .ResearchCentre => { type := .ResearchCentre, cost := 10000, popGen := 0, incomeGen := -5,
                         maxAllowed := some 1 }

/-- One grid cell, from `types.ts` (`TileData`).  The optional `pollution`
field is total here: the source reads it as `(tile.pollution || 0)`. -/
structure TileData where
  x : ℤ
  y : ℤ
  buildingType : BuildingType
  pollution : ℚ := 0
  hasRoadAccess : Bool := false
deriving DecidableEq

/-- Demographic cohorts (`CityStats.demographics`). -/
structure Demographics where
  children : ℚ
  adults : ℚ
  seniors : ℚ
deriving DecidableEq

/-- Job tallies (`CityStats.jobs`). -/
structure Jobs where
  commercial : ℚ
  industrial : ℚ
  total : ℚ
  unemployment : ℚ
deriving DecidableEq

/-- Budget breakdown written each tick by `updateSimulation`. -/
structure BudgetDetails where
  tax : ℚ
  business : ℚ
  services : ℚ
  welfare : ℚ
deriving DecidableEq

/-- Budget record (`CityStats.budget`). -/
structure Budget where
  income : ℚ
  expenses : ℚ
  details : BudgetDetails
  lastMonthProfit : ℚ := 0
deriving DecidableEq

/-- A 2D vector (`CityStats.windDirection`). -/
structure Vec2 where
  x : ℚ
  y : ℚ
deriving DecidableEq

/-- Advisor goal, from `types.ts` (`AIGoal`); `targetType` is one of the
strings `population` / `money` / `building_count`. -/
structure AIGoal where
  description : String
  targetType : String
  targetValue : ℚ
  buildingType : Option BuildingType := none
  reward : ℚ
  completed : Bool
deriving DecidableEq

/-- The simulation stats record, from `types.ts` / `INITIAL_STATS` in
`utils/simulation.ts`. -/
structure CityStats where
  money : ℚ
  population : ℚ
  day : ℚ
  taxRate : ℚ
  happiness : ℚ
  education : ℚ
  safety : ℚ
  housingCapacity : ℚ
  demographics : Demographics
  jobs : Jobs
  budget : Budget
  shadowEconomy : ℚ
  supplyLevel : ℚ
  loanPrincipal : ℚ
  loanInterestRate : ℚ
  activeEvent : EconomicEvent
  eventDuration : ℚ
  sharePrice : ℚ
  investmentShares : ℚ
  investmentAverageCost : ℚ
  crimeRate : ℚ
  security : ℚ
  pollutionLevel : ℚ
  windDirection : Vec2
  windSpeed : ℚ
  currentGoal : Option AIGoal
deriving DecidableEq

/-- The record `INITIAL_STATS` from `utils/simulation.ts`. -/
def INITIAL_STATS : CityStats where
  money := 2000
  population := 0
  day := 1
  taxRate := 0.1
  happiness := 100
  education := 0
  safety := 100
  housingCapacity := 0
  demographics := { children := 0, adults := 0, seniors := 0 }
  jobs := { commercial := 0, industrial := 0, total := 0, unemployment := 0 }
  budget := { income := 0, expenses := 0,
              details := { tax := 0, business := 0, services := 0, welfare := 0 } }
  shadowEconomy := 0
  supplyLevel := 1
  loanPrincipal := 0
  loanInterestRate := 0.05
  activeEvent := EconomicEvent.None
  eventDuration := 0
  sharePrice := 100
  investmentShares := 0
  investmentAverageCost := 0
  crimeRate := 0
  security := 100
  pollutionLevel := 0
  windDirection := { x := 1, y := 0 }
  windSpeed := 0.5
  currentGoal := none

/-- Research sub-record used by the application controller (`App.tsx`). -/
structure Research where
  isResearchCentreBuilt : Bool
  landExpansionLevel : ℚ
  isMarsDiscovered : Bool
  nauticalLevel : ℚ
deriving DecidableEq

/-- The application-level stats record seen by `performAction` in `App.tsx`:
the simulation stats plus the research / fog-of-war fields the controller
reads and writes. -/
structure AppCityStats extends CityStats where
  research : Research
  unlockedGridSize : ℚ
deriving DecidableEq

/-- The constant `GRID_SIZE` from `constants.tsx`. -/
def GRID_SIZE : ℤ := 45

/-- The application grid, a `GRID_SIZE × GRID_SIZE` array of tiles.  Embedded
as a total function on integer coordinates; `performAction` bounds-checks
every access exactly as the source does, so only indices inside
`[0, GRID_SIZE)` are ever relevant. -/
def AppGrid : Type := ℤ → ℤ → TileData

/-- The write `newGrid[y][x] = tile` (row `y`, column `x`), the one grid write performed
by `performAction`. -/
def writeTile (grid : AppGrid) (x y : ℤ) (tile : TileData) : AppGrid :=
  fun i j => if i = y ∧ j = x then tile else grid i j

/-- The action validator `performAction` from `App.tsx` (lines 228-305).
Returns the boolean result of the source function together with the grid and
stats as they stand after the `setGrid` / `setStats` calls it issues. -/
def performAction (action : String) (btype : Option BuildingType) (x y : ℤ)
    (grid : AppGrid) (stats : AppCityStats) : Bool × AppGrid × AppCityStats :=
  if x < 0 ∨ GRID_SIZE ≤ x ∨ y < 0 ∨ GRID_SIZE ≤ y then (false, grid, stats) else
  -- Check Playable Bounds (Fog of War)
  let center : ℤ := GRID_SIZE / 2
  let halfSize : ℤ := ⌊stats.unlockedGridSize / 2⌋
  let minBounds : ℤ := center - halfSize
  let maxBounds : ℤ := center + halfSize
  let isOutOfBounds := x < minBounds ∨ maxBounds < x ∨ y < minBounds ∨ maxBounds < y
  if action = "BUILD" ∧ isOutOfBounds then (false, grid, stats) else
  let currentTile := grid y x
  if action = "DEMOLISH" then
    -- If bridge, turn to water.  If building, turn to None (Land).
    if currentTile.buildingType ≠ BuildingType.None ∧
        currentTile.buildingType ≠ BuildingType.Water then
      let replacementType := if currentTile.buildingType = BuildingType.Bridge
        then BuildingType.Water else BuildingType.None
      -- Demolishing a Research Centre clears the research flag
      let stats1 := if currentTile.buildingType = BuildingType.ResearchCentre
        then { stats with research := { stats.research with isResearchCentreBuilt := false } }
        else stats
      let newGrid := writeTile grid x y { currentTile with buildingType := replacementType }
      let demolishCost : ℚ := 5
      (true, newGrid, { stats1 with money := stats1.money - demolishCost })
    else (false, grid, stats)
  else if action = "BUILD" then
    match btype with
    | none => (false, grid, stats)
    | some t =>
      let config := BUILDINGS t
      let isWater := currentTile.buildingType = BuildingType.Water
      let isBridge := t = BuildingType.Bridge
      -- 1. Cannot build normal buildings on Water
      if isWater ∧ ¬ isBridge then (false, grid, stats)
      -- 2. Can ONLY build Bridge on Water
      else if ¬ isWater ∧ isBridge then (false, grid, stats)
      else
        -- 3. Check emptiness (water counts as empty for bridges)
        let isEmpty := currentTile.buildingType = BuildingType.None ∨
          currentTile.buildingType = BuildingType.Water
        if isEmpty then
          if config.cost ≤ stats.money then
            let newGrid := writeTile grid x y { currentTile with buildingType := t }
            let newResearch := if t = BuildingType.ResearchCentre
              then { stats.research with isResearchCentreBuilt := true }
              else stats.research
            (true, newGrid, { stats with money := stats.money - config.cost,
                                         research := newResearch })
          else (false, grid, stats)
        else (false, grid, stats)
  else (false, grid, stats)

/-- Coordinates inside the grid extents checked by `performAction`. -/
def inBounds (x y : ℤ) : Prop :=
  0 ≤ x ∧ x < GRID_SIZE ∧ 0 ≤ y ∧ y < GRID_SIZE

instance (x y : ℤ) : Decidable (inBounds x y) := by
  unfold inBounds; infer_instance

section ActionValidator

/-- C1: for every in-bounds coordinate, `performAction` rejects — returning
`false` with the grid and stats unchanged — a Build of a non-Bridge type on a
`Water` tile (with no condition on money), a Build of `Bridge` on a non-`Water`
tile, a Build of any type on a tile that is neither `None` nor `Water`, and a
Demolish of a `None` tile. -/
theorem performAction_rejects_invalid (x y : ℤ) (grid : AppGrid) (stats : AppCityStats)
    (hin : inBounds x y) :
    (∀ t : BuildingType, (grid y x).buildingType = BuildingType.Water →
      t ≠ BuildingType.Bridge →
      performAction "BUILD" (some t) x y grid stats = (false, grid, stats)) ∧
    ((grid y x).buildingType ≠ BuildingType.Water →
      performAction "BUILD" (some BuildingType.Bridge) x y grid stats = (false, grid, stats)) ∧
    (∀ t : BuildingType, (grid y x).buildingType ≠ BuildingType.None →
      (grid y x).buildingType ≠ BuildingType.Water →
      performAction "BUILD" (some t) x y grid stats = (false, grid, stats)) ∧
    ((grid y x).buildingType = BuildingType.None →
      performAction "DEMOLISH" none x y grid stats = (false, grid, stats)) := by
  obtain ⟨hx0, hx1, hy0, hy1⟩ := hin
  have h0 : ¬ (x < 0 ∨ GRID_SIZE ≤ x ∨ y < 0 ∨ GRID_SIZE ≤ y) := by
    unfold GRID_SIZE at *; omega
  refine ⟨?_, ?_, ?_, ?_⟩
  · intro t hw hb
    simp only [performAction, if_neg h0]
    split_ifs with h1 h2 h3 h4 <;> simp_all
  · intro hw
    simp only [performAction, if_neg h0]
    split_ifs with h1 h2 h3 h4 <;> simp_all
  · intro t hn hw
    simp only [performAction, if_neg h0]
    split_ifs with h1 h2 h3 h4 h5 h6 <;> simp_all
  · intro hn
    simp only [performAction, if_neg h0]
    split_ifs with h1 h2 h3 <;> simp_all

/-- Witness for `performAction_rejects_invalid`: a concrete grid with a Water
tile at (1,1), a Residential tile at (2,2) and land elsewhere; all four
rejections hold there. -/
def c1WitnessGrid : AppGrid := fun i j =>
  { x := j, y := i,
    buildingType := if i = 1 ∧ j = 1 then BuildingType.Water
      else if i = 2 ∧ j = 2 then BuildingType.Residential
      else BuildingType.None }

/-- A concrete application stats record used by the validator witnesses. -/
def c1WitnessStats : AppCityStats :=
  { INITIAL_STATS with
    research := { isResearchCentreBuilt := false, landExpansionLevel := 0,
                  isMarsDiscovered := false, nauticalLevel := 0 },
    unlockedGridSize := 45 }

theorem performAction_rejects_invalid_witness :
    inBounds 1 1 ∧ inBounds 2 2 ∧
    performAction "BUILD" (some BuildingType.Residential) 1 1 c1WitnessGrid c1WitnessStats
      = (false, c1WitnessGrid, c1WitnessStats) ∧
    performAction "BUILD" (some BuildingType.Bridge) 2 2 c1WitnessGrid c1WitnessStats
      = (false, c1WitnessGrid, c1WitnessStats) ∧
    performAction "BUILD" (some BuildingType.Commercial) 2 2 c1WitnessGrid c1WitnessStats
      = (false, c1WitnessGrid, c1WitnessStats) ∧
    performAction "DEMOLISH" none 3 3 c1WitnessGrid c1WitnessStats
      = (false, c1WitnessGrid, c1WitnessStats) :=
  ⟨by decide, by decide,
   (performAction_rejects_invalid 1 1 c1WitnessGrid c1WitnessStats (by decide)).1
     BuildingType.Residential (by decide) (by decide),
   (performAction_rejects_invalid 2 2 c1WitnessGrid c1WitnessStats (by decide)).2.1
     (by decide),
   (performAction_rejects_invalid 2 2 c1WitnessGrid c1WitnessStats (by decide)).2.2.1
     BuildingType.Commercial (by decide) (by decide),
   (performAction_rejects_invalid 3 3 c1WitnessGrid c1WitnessStats (by decide)).2.2.2
     (by decide)⟩

end ActionValidator

section DemolishReversal

/-- C3: for every in-bounds tile, Demolish of a `Bridge` tile is accepted and
reverts the tile to `Water`; Demolish of any other non-`None`, non-`Water`
building is accepted and reverts the tile to `None`; Demolish of a `None` tile
is rejected; and every accepted Demolish charges the flat fee of 5 from money
with no affordability hypothesis anywhere (so it goes through at any balance,
negative included). -/
theorem performAction_demolish_reversal (x y : ℤ) (grid : AppGrid) (stats : AppCityStats)
    (hin : inBounds x y) :
    ((grid y x).buildingType = BuildingType.Bridge →
      performAction "DEMOLISH" none x y grid stats =
        (true, writeTile grid x y { grid y x with buildingType := BuildingType.Water },
         { stats with money := stats.money - 5 })) ∧
    ((grid y x).buildingType ≠ BuildingType.None →
     (grid y x).buildingType ≠ BuildingType.Water →
     (grid y x).buildingType ≠ BuildingType.Bridge →
      (performAction "DEMOLISH" none x y grid stats).1 = true ∧
      (performAction "DEMOLISH" none x y grid stats).2.1 =
        writeTile grid x y { grid y x with buildingType := BuildingType.None } ∧
      (performAction "DEMOLISH" none x y grid stats).2.2.money = stats.money - 5) ∧
    ((grid y x).buildingType = BuildingType.None →
      performAction "DEMOLISH" none x y grid stats = (false, grid, stats)) := by
  obtain ⟨hx0, hx1, hy0, hy1⟩ := hin
  have h0 : ¬ (x < 0 ∨ GRID_SIZE ≤ x ∨ y < 0 ∨ GRID_SIZE ≤ y) := by
    unfold GRID_SIZE at *; omega
  refine ⟨?_, ?_, ?_⟩
  · intro hb
    simp only [performAction, if_neg h0]
    split_ifs with h1 h2 h3 h4 <;> simp_all
  · intro hn hw hb
    simp only [performAction, if_neg h0]
    split_ifs with h1 h2 h3 h4 <;> simp_all
  · intro hn
    simp only [performAction, if_neg h0]
    split_ifs with h1 h2 h3 <;> simp_all

/-- Witness for `performAction_demolish_reversal`: a grid with a Bridge at
(1,1) and a Casino at (2,2), and a stats record with *negative* money, so the
accepted demolitions exhibited here also witness the no-affordability-gate
part of the claim. -/
def c3WitnessGrid : AppGrid := fun i j =>
  { x := j, y := i,
    buildingType := if i = 1 ∧ j = 1 then BuildingType.Bridge
      else if i = 2 ∧ j = 2 then BuildingType.Casino
      else BuildingType.None }

def c3WitnessStats : AppCityStats :=
  { INITIAL_STATS with
    money := -500,
    research := { isResearchCentreBuilt := false, landExpansionLevel := 0,
                  isMarsDiscovered := false, nauticalLevel := 0 },
    unlockedGridSize := 45 }

theorem performAction_demolish_reversal_witness :
    inBounds 1 1 ∧ inBounds 2 2 ∧
    performAction "DEMOLISH" none 1 1 c3WitnessGrid c3WitnessStats =
      (true, writeTile c3WitnessGrid 1 1
          { c3WitnessGrid 1 1 with buildingType := BuildingType.Water },
       { c3WitnessStats with money := c3WitnessStats.money - 5 }) ∧
    ((performAction "DEMOLISH" none 2 2 c3WitnessGrid c3WitnessStats).1 = true ∧
     (performAction "DEMOLISH" none 2 2 c3WitnessGrid c3WitnessStats).2.1 =
       writeTile c3WitnessGrid 2 2
         { c3WitnessGrid 2 2 with buildingType := BuildingType.None } ∧
     (performAction "DEMOLISH" none 2 2 c3WitnessGrid c3WitnessStats).2.2.money =
       c3WitnessStats.money - 5) ∧
    performAction "DEMOLISH" none 3 3 c3WitnessGrid c3WitnessStats =
      (false, c3WitnessGrid, c3WitnessStats) :=
  ⟨by decide, by decide,
   (performAction_demolish_reversal 1 1 c3WitnessGrid c3WitnessStats (by decide)).1
     (by decide),
   (performAction_demolish_reversal 2 2 c3WitnessGrid c3WitnessStats (by decide)).2.1
     (by decide) (by decide) (by decide),
   (performAction_demolish_reversal 3 3 c3WitnessGrid c3WitnessStats (by decide)).2.2
     (by decide)⟩

end DemolishReversal


section BuildFrame

/-- All-land grid used by the C2 counterexample. -/
def c2Grid : AppGrid := fun i j => { x := j, y := i, buildingType := BuildingType.None }

/-- Stats with enough money for a Research Centre and the research flag off. -/
def c2Stats : AppCityStats :=
  { INITIAL_STATS with
    money := 10000,
    research := { isResearchCentreBuilt := false, landExpansionLevel := 0,
                  isMarsDiscovered := false, nauticalLevel := 0 },
    unlockedGridSize := 45 }

unseal Rat.inv Rat.mul Rat.add Rat.sub Rat.ofScientific in
/-- Counterexample to C2 as stated: the Build of `ResearchCentre` at (22,22)
is accepted (returns `true`), yet the returned stats differ from the input in
more than `money`: `research.isResearchCentreBuilt` flips from `false` to
`true`, so not every stats field other than money is unchanged. -/
theorem build_researchCentre_changes_research :
    (performAction "BUILD" (some BuildingType.ResearchCentre) 22 22 c2Grid c2Stats).1
      = true ∧
    c2Stats.research.isResearchCentreBuilt = false ∧
    (performAction "BUILD" (some BuildingType.ResearchCentre) 22 22 c2Grid
        c2Stats).2.2.research.isResearchCentreBuilt = true := by
  decide

set_option maxHeartbeats 1000000 in
/-- C2 amended: for every *accepted* Build of type `t` at `(x,y)` the result is
exactly: money decreased by the catalog cost of `t`, the grid changed only at
`(x,y)` (that tile getting building type `t`, its other fields kept), and every
other stats field unchanged — except that when `t` is `ResearchCentre` the
`research.isResearchCentreBuilt` flag is additionally set to `true`.  For
every rejected call (Build or Demolish, any action string) the grid and the
stats — money included — are returned completely unchanged. -/
theorem performAction_build_frame (action : String) (btype : Option BuildingType)
    (x y : ℤ) (grid : AppGrid) (stats : AppCityStats) :
    (∀ t : BuildingType, action = "BUILD" → btype = some t →
      ((performAction action btype x y grid stats).1 = true →
        performAction action btype x y grid stats =
          (true, writeTile grid x y { grid y x with buildingType := t },
           { stats with
               money := stats.money - (BUILDINGS t).cost,
               research := if t = BuildingType.ResearchCentre
                 then { stats.research with isResearchCentreBuilt := true }
                 else stats.research }) ∧
        (∀ i j : ℤ, ¬ (i = y ∧ j = x) →
          (performAction action btype x y grid stats).2.1 i j = grid i j))) ∧
    ((performAction action btype x y grid stats).1 = false →
      performAction action btype x y grid stats = (false, grid, stats)) := by
  have hBD : ¬ ("BUILD" = "DEMOLISH") := by decide
  constructor
  · intro t ha hb
    subst ha hb
    simp only [performAction]
    split_ifs <;> intro hacc <;>
      first
        | exact hacc.elim
        | exact Bool.noConfusion hacc
        | exact absurd ‹"BUILD" = "DEMOLISH"› hBD
        | exact absurd rfl ‹¬ ("BUILD" = "BUILD")›
        | exact ⟨rfl, fun i j hij => if_neg hij⟩
  · rcases btype with _ | t <;> simp only [performAction] <;>
      split_ifs <;> intro hrej <;>
      first
        | rfl
        | exact hrej.elim
        | exact Bool.noConfusion hrej

end BuildFrame

section EconomicSimulator

/-- The operation `Math.floor` on a JS number, as a rational-valued operation. -/
def mathFloor (q : ℚ) : ℚ := ((⌊q⌋ : ℤ) : ℚ)

/-- The final happiness write of `updateSimulation`:
`Math.max(0, Math.min(100, Math.floor(baseHappiness)))`. -/
def happinessClamp (b : ℚ) : ℚ := max 0 (min 100 (mathFloor b))

/-- The simulation grid: an `H × W` matrix of tiles, indexed `g y x` just as
`grid[y][x]` is in the source. -/
def SimGrid (H W : ℕ) : Type := Fin H → Fin W → TileData

/-- The row-major traversal order of `grid.forEach(row => row.forEach(...))`
and of the nested `for` loops of `simulateEnvironment`. -/
def gridCoords (H W : ℕ) : List (Fin H × Fin W) :=
  (List.finRange H).flatMap fun y => (List.finRange W).map fun x => (y, x)

/-- All tiles of the grid, in traversal order. -/
def tileList {H W : ℕ} (g : SimGrid H W) : List TileData :=
  (gridCoords H W).map fun c => g c.1 c.2

/-- The `schools++` / `hospitals++` / `police++` / `parks++` counters of the
census pass of `updateSimulation`. -/
def countBuilding {H W : ℕ} (g : SimGrid H W) (bt : BuildingType) : ℕ :=
  ((tileList g).filter fun t => t.buildingType = bt).length

/-- The hard-coded per-building service upkeep accumulated by the census pass
(School 10, Hospital 20, Police 15, FireStation 15, inside the
`buildingType !== None` branch). -/
def serviceUpkeepSum {H W : ℕ} (g : SimGrid H W) : ℚ :=
  ((tileList g).map fun t =>
    if t.buildingType ≠ BuildingType.None then
      (if t.buildingType = BuildingType.School then (10 : ℚ) else 0) +
      (if t.buildingType = BuildingType.Hospital then 20 else 0) +
      (if t.buildingType = BuildingType.Police then 15 else 0) +
      (if t.buildingType = BuildingType.FireStation then 15 else 0)
    else 0).sum

/-- Money gained during the census pass
(`if (config.incomeGen !== 0) newStats.money += config.incomeGen`). -/
def incomeSum {H W : ℕ} (g : SimGrid H W) : ℚ :=
  ((tileList g).map fun t =>
    if t.buildingType ≠ BuildingType.None then
      (if (BUILDINGS t.buildingType).incomeGen ≠ 0
        then (BUILDINGS t.buildingType).incomeGen else 0)
    else 0).sum

/-- Summed housing capacity (`if (config.popGen > 0) housingCapacity += ...`). -/
def housingCapacitySum {H W : ℕ} (g : SimGrid H W) : ℚ :=
  ((tileList g).map fun t =>
    if t.buildingType ≠ BuildingType.None then
      (if 0 < (BUILDINGS t.buildingType).popGen then (BUILDINGS t.buildingType).popGen else 0)
    else 0).sum

/-- Summed crime coefficients (`if (config.crime) rawCrime += config.crime`;
the JS truthiness test skips exactly the zero/absent coefficients). -/
def rawCrimeSum {H W : ℕ} (g : SimGrid H W) : ℚ :=
  ((tileList g).map fun t =>
    if t.buildingType ≠ BuildingType.None then
      (if (BUILDINGS t.buildingType).crime ≠ 0 then (BUILDINGS t.buildingType).crime else 0)
    else 0).sum

/-- Summed pollution coefficients (`if (config.pollution) rawPollution += ...`). -/
def rawPollutionSum {H W : ℕ} (g : SimGrid H W) : ℚ :=
  ((tileList g).map fun t =>
    if t.buildingType ≠ BuildingType.None then
      (if (BUILDINGS t.buildingType).pollution ≠ 0
        then (BUILDINGS t.buildingType).pollution else 0)
    else 0).sum

/-- Commercial job slots: 5 per Commercial tile. -/
def commJobsSum {H W : ℕ} (g : SimGrid H W) : ℚ :=
  ((tileList g).map fun t =>
    if t.buildingType = BuildingType.Commercial then (5 : ℚ) else 0).sum

/-- Industrial job slots: 8 per Industrial tile. -/
def indJobsSum {H W : ℕ} (g : SimGrid H W) : ℚ :=
  ((tileList g).map fun t =>
    if t.buildingType = BuildingType.Industrial then (8 : ℚ) else 0).sum

/-- Job total `totalJobs = commJobs + indJobs`. -/
def totalJobsOf {H W : ℕ} (g : SimGrid H W) : ℚ := commJobsSum g + indJobsSum g

/-- Crime gauge `newStats.crimeRate = Math.max(0, rawCrime)`. -/
def crimeRateNew {H W : ℕ} (g : SimGrid H W) : ℚ := max 0 (rawCrimeSum g)

/-- Pollution gauge `newStats.pollutionLevel = Math.max(0, rawPollution)`. -/
def pollutionLevelNew {H W : ℕ} (g : SimGrid H W) : ℚ := max 0 (rawPollutionSum g)

/-- Phase 2 of `updateSimulation`: the demographic transition (births,
immigration, aging, deaths), translated statement by statement from lines
120-171 of `utils/simulation.ts`.  All reads of `newStats.demographics` and
`newStats.happiness` at this point in the source still see the input values,
and `newStats.crimeRate` sees the freshly computed crime rate. -/
def demographicsStep (s : CityStats) {H W : ℕ} (g : SimGrid H W) : Demographics :=
  let schools : ℚ := countBuilding g BuildingType.School
  let hospitals : ℚ := countBuilding g BuildingType.Hospital
  let housingCapacity := housingCapacitySum g
  let happinessFactor := s.happiness / 100
  let schoolFactor := 1 + (schools * 50) / (max 1 s.demographics.children + 1)
  let totalPop := s.demographics.children + s.demographics.adults + s.demographics.seniors
  -- Births (slow, happiness-driven) and immigration
  let children1 := if totalPop < housingCapacity
    then s.demographics.children + mathFloor (s.demographics.adults * (0.02 * happinessFactor))
    else s.demographics.children
  let adults1 := if totalPop < housingCapacity
    then (if totalPop < 50 then s.demographics.adults + 2
          else if totalPop < housingCapacity * 0.5 then s.demographics.adults + 1
          else s.demographics.adults)
    else s.demographics.adults
  -- Aging
  let agingChildren := mathFloor (children1 * (0.05 * schoolFactor))
  let children2 := children1 - agingChildren
  let adults2 := adults1 + agingChildren
  let agingAdults := mathFloor (adults2 * 0.02)
  let adults3 := adults2 - agingAdults
  let seniors1 := s.demographics.seniors + agingAdults
  -- Crime Deaths: if crime is high (>50), seniors die faster
  let deathChance := 0.05 / (1 + hospitals)
  let crimeDeathFactor : ℚ := if 50 < crimeRateNew g then 0.05 else 0
  let deaths := mathFloor (seniors1 * (deathChance + crimeDeathFactor))
  let seniors2 := max 0 (seniors1 - deaths)
  { children := children2, adults := adults3, seniors := seniors2 }

/-- The value of `newStats.population` after the demographic transition. -/
def populationOf (s : CityStats) {H W : ℕ} (g : SimGrid H W) : ℚ :=
  (demographicsStep s g).children + (demographicsStep s g).adults +
    (demographicsStep s g).seniors

/-- Jobless count `unemployment = Math.max(0, adults - totalJobs)`. -/
def unemploymentOf (s : CityStats) {H W : ℕ} (g : SimGrid H W) : ℚ :=
  max 0 ((demographicsStep s g).adults - totalJobsOf g)

/-- Event decay: the active event counts down and clears at zero; the
decremented duration is kept as is. -/
def eventAfterDecay (s : CityStats) : EconomicEvent × ℚ :=
  if s.activeEvent ≠ EconomicEvent.None then
    (if s.eventDuration - 1 ≤ 0 then EconomicEvent.None else s.activeEvent,
     s.eventDuration - 1)
  else (s.activeEvent, s.eventDuration)

/-- Event revenue multiplier (Boom 1.5, Recession 0.7, Strike 0.2), read off
the already-decayed event. -/
def revenueMultiplierOf (s : CityStats) : ℚ :=
  if (eventAfterDecay s).1 = EconomicEvent.Boom then 1.5
  else if (eventAfterDecay s).1 = EconomicEvent.Recession then 0.7
  else if (eventAfterDecay s).1 = EconomicEvent.Strike then 0.2
  else 1.0

/-- Revenue `taxRevenue = floor(adults * 5 * taxRate * taxEfficiency * eventMult)`
with `taxEfficiency = 1 - shadowEconomy * 0.5`. -/
def taxRevenueOf (s : CityStats) {H W : ℕ} (g : SimGrid H W) : ℚ :=
  mathFloor ((demographicsStep s g).adults * 5 * s.taxRate *
    (1 - s.shadowEconomy * 0.5) * revenueMultiplierOf s)

/-- Revenue `businessRevenue = floor(min(totalJobs, adults) * 2 * taxRate *
supplyPenalty * eventMult)` with `supplyPenalty = 1 - (1 - supplyLevel)`. -/
def businessRevenueOf (s : CityStats) {H W : ℕ} (g : SimGrid H W) : ℚ :=
  mathFloor (min (totalJobsOf g) (demographicsStep s g).adults * 2 * s.taxRate *
    (1 - (1 - s.supplyLevel)) * revenueMultiplierOf s)

/-- Income `totalIncome = taxRevenue + businessRevenue`. -/
def totalIncomeOf (s : CityStats) {H W : ℕ} (g : SimGrid H W) : ℚ :=
  taxRevenueOf s g + businessRevenueOf s g

/-- Theft: crime above 20 steals `floor((crimeRate - 20) * 5)` per tick. -/
def theftLossOf {H W : ℕ} (g : SimGrid H W) : ℚ :=
  if 20 < crimeRateNew g then mathFloor ((crimeRateNew g - 20) * 5) else 0

/-- Service upkeep plus the bureaucracy cost
`floor(population ^ 1.1 * 0.1)`; `jsPow11` stands for the JS float operation
`Math.pow(·, 1.1)`, which has no rational counterpart. -/
def serviceUpkeepTotal (jsPow11 : ℚ → ℚ) (s : CityStats) {H W : ℕ} (g : SimGrid H W) : ℚ :=
  serviceUpkeepSum g + mathFloor (jsPow11 (populationOf s g) * 0.1)

/-- Welfare `welfareCost = unemployment * 2`. -/
def welfareCostOf (s : CityStats) {H W : ℕ} (g : SimGrid H W) : ℚ :=
  unemploymentOf s g * 2

/-- Expenses `totalExpenses = serviceUpkeep + welfareCost + theftLoss`. -/
def totalExpensesOf (jsPow11 : ℚ → ℚ) (s : CityStats) {H W : ℕ} (g : SimGrid H W) : ℚ :=
  serviceUpkeepTotal jsPow11 s g + welfareCostOf s g + theftLossOf g

/-- The treasury just after `newStats.money += (totalIncome - totalExpenses)`
(line 238 of `utils/simulation.ts`): the input money, plus the building income
collected during the census, plus income minus expenses — the value the debt
spiral branch then tests against zero. -/
def preDebtMoney (jsPow11 : ℚ → ℚ) (s : CityStats) {H W : ℕ} (g : SimGrid H W) : ℚ :=
  s.money + incomeSum g + (totalIncomeOf s g - totalExpensesOf jsPow11 s g)

/-- Residential-class pollution total for the local smog penalty. -/
def resPollutionSum {H W : ℕ} (g : SimGrid H W) : ℚ :=
  ((tileList g).map fun t =>
    if t.buildingType = BuildingType.Residential ∨ t.buildingType = BuildingType.Apartment ∨
        t.buildingType = BuildingType.Mansion then t.pollution else 0).sum

/-- Number of residential-class tiles. -/
def resCountOf {H W : ℕ} (g : SimGrid H W) : ℕ :=
  ((tileList g).filter fun t =>
    t.buildingType = BuildingType.Residential ∨ t.buildingType = BuildingType.Apartment ∨
      t.buildingType = BuildingType.Mansion).length

/-- Section 5 of `updateSimulation` (Happiness Calculation): starts from 100
and applies, in source order, the tax penalty, the parks bonus, the global and
local pollution penalties, the shadow-economy-damped unemployment penalty, the
supply-shortage penalty, the active-event modifier and the crime penalty.  The
`newStats` fields it reads are, at that point in the source, the input
`taxRate` / `shadowEconomy` / `supplyLevel`, the freshly recomputed
`pollutionLevel` / `crimeRate`, and the already-decayed `activeEvent`. -/
def baseHappinessOf (s : CityStats) {H W : ℕ} (g : SimGrid H W) : ℚ :=
  let parks : ℚ := countBuilding g BuildingType.Park
  let base0 : ℚ := 100 - s.taxRate * 200 + min 20 (parks * 2)
  -- 1. Global Smog Penalty
  let base1 := if 20 < pollutionLevelNew g
    then base0 - (pollutionLevelNew g - 20) else base0
  -- 2. Local Residential Pollution Penalty
  let base2 := if 0 < resCountOf g then
      (if 10 < resPollutionSum g / (resCountOf g : ℚ)
        then base1 - (resPollutionSum g / (resCountOf g : ℚ)) * 2 else base1)
    else base1
  let unempPenalty := unemploymentOf s g * 0.5 * (1 - s.shadowEconomy)
  let base3 := base2 - unempPenalty
  let base4 := if s.supplyLevel < 0.8
    then base3 - (1 - s.supplyLevel) * 20 else base3
  let base5 := if (eventAfterDecay s).1 = EconomicEvent.Boom then base4 + 10
    else if (eventAfterDecay s).1 = EconomicEvent.Recession then base4 - 10
    else if (eventAfterDecay s).1 = EconomicEvent.Strike then base4 - 20
    else base4
  base5 - crimeRateNew g * 0.5

/-- The per-tick economic/demographic simulator `updateSimulation` from
`utils/simulation.ts`.  `rand` is the one `Math.random()` draw the function
makes (share-price volatility) and `jsPow11` stands for `Math.pow(·, 1.1)`.
The returned record is the `newStats` object as the source returns it. -/
def updateSimulation (rand : ℚ) (jsPow11 : ℚ → ℚ) (currentStats : CityStats)
    {H W : ℕ} (g : SimGrid H W) : CityStats :=
  let schools : ℚ := countBuilding g BuildingType.School
  let totalJobs := totalJobsOf g
  -- Derived gauges
  let educationLevel := min 100 (schools * 15)
  let safetyLevel := max 0 (100 - crimeRateNew g * 2)
  let demo := demographicsStep currentStats g
  let unemployment := unemploymentOf currentStats g
  -- Volatile economy: event decay and share-price random walk
  let eventDecayed := eventAfterDecay currentStats
  let marketTrend : ℚ := if eventDecayed.1 = EconomicEvent.Boom then 1.05
    else if eventDecayed.1 = EconomicEvent.Recession then 0.95 else 1.0
  let volatility := rand * 0.1 - 0.05
  let newSharePrice := max 1 (mathFloor (currentStats.sharePrice * (1 + volatility) * marketTrend))
  -- Revenue, theft, expenses and the treasury update
  let taxRevenue := taxRevenueOf currentStats g
  let businessRevenue := businessRevenueOf currentStats g
  let totalIncome := totalIncomeOf currentStats g
  let totalExpenses := totalExpensesOf jsPow11 currentStats g
  let money2 := preDebtMoney jsPow11 currentStats g
  -- Debt spiral: 1%-of-deficit penalty, tracked in budget expenses, plus a
  -- 5-point happiness write (overwritten below by the happiness calculation)
  let debtServiceFloored := if money2 < 0 then mathFloor (|money2| * 0.01) else 0
  let money3 := money2 - debtServiceFloored
  let happinessAfterDebt := if money2 < 0 then currentStats.happiness - 5
    else currentStats.happiness
  let statsMid : CityStats :=
    { currentStats with
        day := currentStats.day + 1
        housingCapacity := housingCapacitySum g
        crimeRate := crimeRateNew g
        pollutionLevel := pollutionLevelNew g
        security := max 0 (100 - crimeRateNew g)
        education := educationLevel
        safety := safetyLevel
        demographics := demo
        population := demo.children + demo.adults + demo.seniors
        activeEvent := eventDecayed.1
        eventDuration := eventDecayed.2
        sharePrice := newSharePrice
        money := money3
        happiness := happinessAfterDebt
        budget :=
          { income := totalIncome
            expenses := totalExpenses + debtServiceFloored
            details := { tax := taxRevenue, business := businessRevenue,
                         services := serviceUpkeepTotal jsPow11 currentStats g,
                         welfare := welfareCostOf currentStats g }
            lastMonthProfit := totalIncome - totalExpenses }
        jobs := { commercial := commJobsSum g, industrial := indJobsSum g,
                  total := totalJobs, unemployment := unemployment } }
  -- 5. Happiness Calculation (overwrites the debt-spiral happiness write)
  { statsMid with happiness := happinessClamp (baseHappinessOf currentStats g) }

/-- The same simulator with the debt-spiral 5-point happiness decrement
removed (the `newStats.happiness -= 5` statement deleted, everything else
untouched) — the comparison definition for claim C10. -/
def updateSimulationNoDebtHappinessHit (rand : ℚ) (jsPow11 : ℚ → ℚ)
    (currentStats : CityStats) {H W : ℕ} (g : SimGrid H W) : CityStats :=
  let schools : ℚ := countBuilding g BuildingType.School
  let totalJobs := totalJobsOf g
  let educationLevel := min 100 (schools * 15)
  let safetyLevel := max 0 (100 - crimeRateNew g * 2)
  let demo := demographicsStep currentStats g
  let unemployment := unemploymentOf currentStats g
  let eventDecayed := eventAfterDecay currentStats
  let marketTrend : ℚ := if eventDecayed.1 = EconomicEvent.Boom then 1.05
    else if eventDecayed.1 = EconomicEvent.Recession then 0.95 else 1.0
  let volatility := rand * 0.1 - 0.05
  let newSharePrice := max 1 (mathFloor (currentStats.sharePrice * (1 + volatility) * marketTrend))
  let taxRevenue := taxRevenueOf currentStats g
  let businessRevenue := businessRevenueOf currentStats g
  let totalIncome := totalIncomeOf currentStats g
  let totalExpenses := totalExpensesOf jsPow11 currentStats g
  let money2 := preDebtMoney jsPow11 currentStats g
  let debtServiceFloored := if money2 < 0 then mathFloor (|money2| * 0.01) else 0
  let money3 := money2 - debtServiceFloored
  let statsMid : CityStats :=
    { currentStats with
        day := currentStats.day + 1
        housingCapacity := housingCapacitySum g
        crimeRate := crimeRateNew g
        pollutionLevel := pollutionLevelNew g
        security := max 0 (100 - crimeRateNew g)
        education := educationLevel
        safety := safetyLevel
        demographics := demo
        population := demo.children + demo.adults + demo.seniors
        activeEvent := eventDecayed.1
        eventDuration := eventDecayed.2
        sharePrice := newSharePrice
        money := money3
        happiness := currentStats.happiness
        budget :=
          { income := totalIncome
            expenses := totalExpenses + debtServiceFloored
            details := { tax := taxRevenue, business := businessRevenue,
                         services := serviceUpkeepTotal jsPow11 currentStats g,
                         welfare := welfareCostOf currentStats g }
            lastMonthProfit := totalIncome - totalExpenses }
        jobs := { commercial := commJobsSum g, industrial := indJobsSum g,
                  total := totalJobs, unemployment := unemployment } }
  { statsMid with happiness := happinessClamp (baseHappinessOf currentStats g) }

/-- The money field returned by the simulator, in closed form: the pre-debt
treasury, minus the floored 1%% penalty exactly when that treasury is
negative. -/
theorem updateSimulation_money_eq (rand : ℚ) (jsPow11 : ℚ → ℚ) (s : CityStats)
    {H W : ℕ} (g : SimGrid H W) :
    (updateSimulation rand jsPow11 s g).money =
      preDebtMoney jsPow11 s g -
        (if preDebtMoney jsPow11 s g < 0
          then mathFloor (|preDebtMoney jsPow11 s g| * 0.01) else 0) := rfl

/-- The demographics field returned by the simulator is the demographic
transition applied to the inputs. -/
theorem updateSimulation_demographics_eq (rand : ℚ) (jsPow11 : ℚ → ℚ)
    (s : CityStats) {H W : ℕ} (g : SimGrid H W) :
    (updateSimulation rand jsPow11 s g).demographics = demographicsStep s g := rfl

/-- The happiness field returned by the simulator is the clamped base
happiness. -/
theorem updateSimulation_happiness_eq (rand : ℚ) (jsPow11 : ℚ → ℚ)
    (s : CityStats) {H W : ℕ} (g : SimGrid H W) :
    (updateSimulation rand jsPow11 s g).happiness =
      happinessClamp (baseHappinessOf s g) := rfl

end EconomicSimulator

section SimulatorClaims

/-- C10: deleting the debt-spiral happiness decrement does not change the
simulator at all — the decrement lands in a `newStats.happiness` slot that is
never read again before the final happiness calculation overwrites it from a
fresh base of 100, so the two functions are extensionally equal. -/
theorem updateSimulation_debt_happiness_hit_dead (rand : ℚ) (jsPow11 : ℚ → ℚ)
    (s : CityStats) {H W : ℕ} (g : SimGrid H W) :
    updateSimulation rand jsPow11 s g =
      updateSimulationNoDebtHappinessHit rand jsPow11 s g := rfl

/-- C4: whatever the inputs — any stats record (extreme tax rates included),
any grid (arbitrarily large summed crime coefficients included), any random
draw and any value of the float power operation — the happiness returned by
one simulation step is an integer between 0 and 100. -/
theorem updateSimulation_happiness_bounds (rand : ℚ) (jsPow11 : ℚ → ℚ)
    (s : CityStats) {H W : ℕ} (g : SimGrid H W) :
    0 ≤ (updateSimulation rand jsPow11 s g).happiness ∧
    (updateSimulation rand jsPow11 s g).happiness ≤ 100 ∧
    ∃ n : ℤ, (updateSimulation rand jsPow11 s g).happiness = (n : ℚ) := by
  rw [updateSimulation_happiness_eq]
  unfold happinessClamp mathFloor
  refine ⟨le_max_left 0 _, max_le (by norm_num) (min_le_left 100 _), ?_⟩
  refine ⟨max 0 (min 100 ⌊baseHappinessOf s g⌋), ?_⟩
  push_cast
  rfl

/-- The all-`None` grid of a fresh map with no water. -/
def emptySimGrid (H W : ℕ) : SimGrid H W :=
  fun y x => { x := (x.val : ℤ), y := (y.val : ℤ), buildingType := BuildingType.None }

theorem tileList_empty_buildingType {H W : ℕ} {t : TileData}
    (ht : t ∈ tileList (emptySimGrid H W)) : t.buildingType = BuildingType.None := by
  simp only [tileList, emptySimGrid, List.mem_map] at ht
  obtain ⟨c, -, rfl⟩ := ht
  rfl

theorem countBuilding_empty {H W : ℕ} {bt : BuildingType} (h : bt ≠ BuildingType.None) :
    countBuilding (emptySimGrid H W) bt = 0 := by
  unfold countBuilding
  rw [List.length_eq_zero, List.filter_eq_nil_iff]
  intro t ht
  rw [tileList_empty_buildingType ht]
  simp [Ne.symm h]

theorem resCountOf_empty {H W : ℕ} : resCountOf (emptySimGrid H W) = 0 := by
  unfold resCountOf
  rw [List.length_eq_zero, List.filter_eq_nil_iff]
  intro t ht
  rw [tileList_empty_buildingType ht]
  simp

theorem serviceUpkeepSum_empty {H W : ℕ} : serviceUpkeepSum (emptySimGrid H W) = 0 := by
  refine List.sum_eq_zero fun q hq => ?_
  simp only [serviceUpkeepSum, List.mem_map] at hq
  obtain ⟨t, ht, rfl⟩ := hq
  rw [tileList_empty_buildingType ht]
  simp

theorem incomeSum_empty {H W : ℕ} : incomeSum (emptySimGrid H W) = 0 := by
  refine List.sum_eq_zero fun q hq => ?_
  simp only [incomeSum, List.mem_map] at hq
  obtain ⟨t, ht, rfl⟩ := hq
  rw [tileList_empty_buildingType ht]
  simp

theorem housingCapacitySum_empty {H W : ℕ} : housingCapacitySum (emptySimGrid H W) = 0 := by
  refine List.sum_eq_zero fun q hq => ?_
  simp only [housingCapacitySum, List.mem_map] at hq
  obtain ⟨t, ht, rfl⟩ := hq
  rw [tileList_empty_buildingType ht]
  simp

theorem rawCrimeSum_empty {H W : ℕ} : rawCrimeSum (emptySimGrid H W) = 0 := by
  refine List.sum_eq_zero fun q hq => ?_
  simp only [rawCrimeSum, List.mem_map] at hq
  obtain ⟨t, ht, rfl⟩ := hq
  rw [tileList_empty_buildingType ht]
  simp

theorem rawPollutionSum_empty {H W : ℕ} : rawPollutionSum (emptySimGrid H W) = 0 := by
  refine List.sum_eq_zero fun q hq => ?_
  simp only [rawPollutionSum, List.mem_map] at hq
  obtain ⟨t, ht, rfl⟩ := hq
  rw [tileList_empty_buildingType ht]
  simp

theorem resPollutionSum_empty {H W : ℕ} : resPollutionSum (emptySimGrid H W) = 0 := by
  refine List.sum_eq_zero fun q hq => ?_
  simp only [resPollutionSum, List.mem_map] at hq
  obtain ⟨t, ht, rfl⟩ := hq
  rw [tileList_empty_buildingType ht]
  simp

theorem commJobsSum_empty {H W : ℕ} : commJobsSum (emptySimGrid H W) = 0 := by
  refine List.sum_eq_zero fun q hq => ?_
  simp only [commJobsSum, List.mem_map] at hq
  obtain ⟨t, ht, rfl⟩ := hq
  rw [tileList_empty_buildingType ht]
  simp

theorem indJobsSum_empty {H W : ℕ} : indJobsSum (emptySimGrid H W) = 0 := by
  refine List.sum_eq_zero fun q hq => ?_
  simp only [indJobsSum, List.mem_map] at hq
  obtain ⟨t, ht, rfl⟩ := hq
  rw [tileList_empty_buildingType ht]
  simp

theorem demographicsStep_initial_empty {H W : ℕ} :
    demographicsStep INITIAL_STATS (emptySimGrid H W) =
      { children := 0, adults := 0, seniors := 0 } := by
  unfold demographicsStep
  rw [housingCapacitySum_empty, countBuilding_empty (by decide),
    countBuilding_empty (by decide)]
  norm_num [INITIAL_STATS, mathFloor]

/-- C7: one simulation step from `INITIAL_STATS` on an entirely empty 10×10
grid keeps the population at 0 (no births, no immigration — the housing
capacity is 0), keeps money at exactly 2000 (zero income, upkeep, welfare and
theft), and returns happiness exactly 80 = 100 − 0.1·200, for any value of the
random draw; the only fact needed about the float power is
`Math.pow(0, 1.1) = 0`. -/
theorem updateSimulation_initial_empty_scenario (rand : ℚ) (jsPow11 : ℚ → ℚ)
    (hpow : jsPow11 0 = 0) :
    (updateSimulation rand jsPow11 INITIAL_STATS (emptySimGrid 10 10)).population = 0 ∧
    (updateSimulation rand jsPow11 INITIAL_STATS (emptySimGrid 10 10)).money = 2000 ∧
    (updateSimulation rand jsPow11 INITIAL_STATS (emptySimGrid 10 10)).happiness = 80 := by
  have hpop : populationOf INITIAL_STATS (emptySimGrid 10 10) = 0 := by
    unfold populationOf
    rw [demographicsStep_initial_empty]
    norm_num
  have hpre : preDebtMoney jsPow11 INITIAL_STATS (emptySimGrid 10 10) = 2000 := by
    unfold preDebtMoney totalIncomeOf taxRevenueOf businessRevenueOf totalExpensesOf
      serviceUpkeepTotal welfareCostOf unemploymentOf theftLossOf crimeRateNew totalJobsOf
    rw [demographicsStep_initial_empty, incomeSum_empty, serviceUpkeepSum_empty,
      rawCrimeSum_empty, commJobsSum_empty, indJobsSum_empty, hpop, hpow]
    norm_num [INITIAL_STATS, mathFloor]
  refine ⟨?_, ?_, ?_⟩
  · have : (updateSimulation rand jsPow11 INITIAL_STATS (emptySimGrid 10 10)).population =
        (demographicsStep INITIAL_STATS (emptySimGrid 10 10)).children +
        (demographicsStep INITIAL_STATS (emptySimGrid 10 10)).adults +
        (demographicsStep INITIAL_STATS (emptySimGrid 10 10)).seniors := rfl
    rw [this, demographicsStep_initial_empty]
    norm_num
  · rw [updateSimulation_money_eq, hpre]
    norm_num
  · rw [updateSimulation_happiness_eq]
    unfold baseHappinessOf happinessClamp pollutionLevelNew unemploymentOf eventAfterDecay
    rw [demographicsStep_initial_empty, countBuilding_empty (by decide),
      rawPollutionSum_empty, resCountOf_empty, crimeRateNew, rawCrimeSum_empty,
      totalJobsOf, commJobsSum_empty, indJobsSum_empty]
    norm_num [INITIAL_STATS, mathFloor]
    rw [if_neg (by simp), if_neg (by simp), if_neg (by simp)]
    norm_num

theorem updateSimulation_initial_empty_scenario_witness :
    ((fun _ : ℚ => (0 : ℚ)) 0 = 0) ∧
    ((updateSimulation 0 (fun _ => 0) INITIAL_STATS (emptySimGrid 10 10)).population = 0 ∧
     (updateSimulation 0 (fun _ => 0) INITIAL_STATS (emptySimGrid 10 10)).money = 2000 ∧
     (updateSimulation 0 (fun _ => 0) INITIAL_STATS (emptySimGrid 10 10)).happiness = 80) :=
  ⟨rfl, updateSimulation_initial_empty_scenario 0 (fun _ => 0) rfl⟩

end SimulatorClaims

section DebtSpiral

/-- Stats record entering a step with a small deficit. -/
def c5Stats : CityStats := { INITIAL_STATS with money := -50 }

unseal Rat.inv Rat.mul Rat.add Rat.sub Rat.ofScientific in
/-- Counterexample to C5 as stated: on an empty 1×1 grid with money = −50 the
treasury is −50 after income and expenses, the debt-spiral branch is taken,
but the charged penalty is `floor(50 · 0.01) = 0` — money does *not* strictly
decrease within the step even though it is negative. -/
theorem updateSimulation_small_deficit_no_decrease :
    preDebtMoney (fun _ => 0) c5Stats (emptySimGrid 1 1) = -50 ∧
    (updateSimulation 0 (fun _ => 0) c5Stats (emptySimGrid 1 1)).money
      = c5Stats.money := by
  decide

/-- C5 amended: in every step whose money is negative after income and
expenses are applied, an additional penalty of `floor(1% of the deficit)` is
charged; this strictly decreases money whenever the deficit is at least 100
(for smaller deficits the floored penalty is 0 and money is unchanged).  The
5-point happiness decrement the branch also applies is overwritten by the
final happiness recomputation (see the C10 theorem) and does not lower the
returned happiness. -/
theorem updateSimulation_debt_penalty (rand : ℚ) (jsPow11 : ℚ → ℚ) (s : CityStats)
    {H W : ℕ} (g : SimGrid H W) (h : preDebtMoney jsPow11 s g < 0) :
    (updateSimulation rand jsPow11 s g).money =
      preDebtMoney jsPow11 s g - mathFloor (|preDebtMoney jsPow11 s g| * 0.01) ∧
    (preDebtMoney jsPow11 s g ≤ -100 →
      (updateSimulation rand jsPow11 s g).money < preDebtMoney jsPow11 s g) := by
  constructor
  · rw [updateSimulation_money_eq, if_pos h]
  · intro h100
    rw [updateSimulation_money_eq, if_pos h]
    have h1 : (1 : ℚ) ≤ |preDebtMoney jsPow11 s g| * 0.01 := by
      rw [abs_of_neg h]
      norm_num
      linarith
    have h2 : (1 : ℤ) ≤ ⌊|preDebtMoney jsPow11 s g| * 0.01⌋ :=
      Int.le_floor.mpr (by exact_mod_cast h1)
    have h3 : (1 : ℚ) ≤ mathFloor (|preDebtMoney jsPow11 s g| * 0.01) := by
      unfold mathFloor
      exact_mod_cast h2
    linarith

/-- Stats record entering a step with a deep deficit. -/
def c5bStats : CityStats := { INITIAL_STATS with money := -20000 }

unseal Rat.inv Rat.mul Rat.add Rat.sub Rat.ofScientific in
theorem updateSimulation_debt_penalty_witness :
    preDebtMoney (fun _ => 0) c5bStats (emptySimGrid 1 1) < 0 ∧
    ((updateSimulation 0 (fun _ => 0) c5bStats (emptySimGrid 1 1)).money =
       preDebtMoney (fun _ => 0) c5bStats (emptySimGrid 1 1) -
         mathFloor (|preDebtMoney (fun _ => 0) c5bStats (emptySimGrid 1 1)| * 0.01) ∧
     (preDebtMoney (fun _ => 0) c5bStats (emptySimGrid 1 1) ≤ -100 →
       (updateSimulation 0 (fun _ => 0) c5bStats (emptySimGrid 1 1)).money <
         preDebtMoney (fun _ => 0) c5bStats (emptySimGrid 1 1))) :=
  ⟨by decide,
   updateSimulation_debt_penalty 0 (fun _ => 0) c5bStats (emptySimGrid 1 1) (by decide)⟩

end DebtSpiral

section InputMutation

/-- Stats record with 50 adults (otherwise `INITIAL_STATS`). -/
def c8Stats : CityStats :=
  { INITIAL_STATS with demographics := { children := 0, adults := 50, seniors := 0 } }

unseal Rat.inv Rat.mul Rat.add Rat.sub Rat.ofScientific in
/-- C8 failing input.  In the source, `let newStats = { ...currentStats }` is
a *shallow* copy: `newStats.demographics` is the very demographics object of
the caller's input record, and it is never reassigned — the demographic
transition updates its fields in place (`newStats.demographics.children += …`,
`… adults -= …`, `… seniors += …`).  The demographics values of the returned
record are therefore also the post-call field values of the input record's
own demographics object.  At this input they differ from the input's original
values (1 adult ages into a senior), so the input stats record does not
survive the call unchanged, contradicting the purity/frame contract. -/
theorem updateSimulation_aliased_demographics_change :
    (updateSimulation 0 (fun _ => 0) c8Stats (emptySimGrid 1 1)).demographics
      ≠ c8Stats.demographics ∧
    (updateSimulation 0 (fun _ => 0) c8Stats (emptySimGrid 1 1)).demographics
      = { children := 0, adults := 49, seniors := 1 } := by
  decide

end InputMutation

section AgentArbiter

unseal Rat.inv Rat.mul Rat.add Rat.sub Rat.ofScientific in
theorem performAction_build_frame_witness :
    (performAction "BUILD" (some BuildingType.Residential) 22 22 c2Grid c2Stats).1
      = true ∧
    (performAction "BUILD" (some BuildingType.Residential) 22 22 c2Grid c2Stats =
       (true,
        writeTile c2Grid 22 22 { c2Grid 22 22 with buildingType := BuildingType.Residential },
        { c2Stats with
            money := c2Stats.money - (BUILDINGS BuildingType.Residential).cost,
            research := if BuildingType.Residential = BuildingType.ResearchCentre
              then { c2Stats.research with isResearchCentreBuilt := true }
              else c2Stats.research }) ∧
     (∀ i j : ℤ, ¬ (i = 22 ∧ j = 22) →
       (performAction "BUILD" (some BuildingType.Residential) 22 22 c2Grid c2Stats).2.1 i j
         = c2Grid i j)) ∧
    performAction "DEMOLISH" none 0 0 c2Grid c2Stats = (false, c2Grid, c2Stats) :=
  ⟨by decide,
   (performAction_build_frame "BUILD" (some BuildingType.Residential) 22 22 c2Grid
      c2Stats).1 BuildingType.Residential rfl rfl (by decide),
   (performAction_build_frame "DEMOLISH" none 0 0 c2Grid c2Stats).2 (by decide)⟩

/-- Outcome of one `fetch` attempt inside `callLocalAI`: a thrown exception
(network failure or timeout abort — and also a 2xx response whose JSON body
fails to parse, since that throw lands in the same `catch`), a non-2xx
response with its status code, or a 2xx response yielding the message
content. -/
inductive FetchOutcome where
  | exception
  | httpError (status : ℕ)
  | success (content : String)
deriving DecidableEq

/-- The constant `MAX_RETRIES` from `callLocalAI`. -/
def MAX_RETRIES : ℕ := 1

/-- The retry loop of `callLocalAI` (`for i = 0; i <= MAX_RETRIES; i++`),
with the remaining number of loop iterations made explicit.  A server error
(status ≥ 500) and an exception are retried while `i < MAX_RETRIES`; a
client error returns `null` at once; exhaustion returns `null`. -/
def callLocalAILoop (attempts : ℕ → FetchOutcome) : ℕ → ℕ → Option String
  | _, 0 => none
  | i, fuel + 1 =>
    match attempts i with
    | FetchOutcome.success content => some content
    | FetchOutcome.httpError status =>
        if 500 ≤ status ∧ i < MAX_RETRIES then callLocalAILoop attempts (i + 1) fuel
        else none
    | FetchOutcome.exception =>
        if i < MAX_RETRIES then callLocalAILoop attempts (i + 1) fuel
        else none

/-- The function `callLocalAI` from the AI service: runs the attempt loop from index 0;
`attempts i` is the outcome of the `i`-th fetch. -/
def callLocalAI (attempts : ℕ → FetchOutcome) : Option String :=
  callLocalAILoop attempts 0 (MAX_RETRIES + 1)

/-- The characters `{` and `}` (written by code so that no brace appears in a
literal). -/
def lbrace : Char := Char.ofNat 123

def rbrace : Char := Char.ofNat 125

/-- The best-effort JSON extraction `content.match(/\x7b[\s\S]*\x7d/)`: the
(leftmost-longest) match runs from the first opening brace to the last
closing brace, and exists only when the latter comes strictly after the
former. -/
def extractBracedMatch (s : String) : Option String :=
  let cs := s.data
  match cs.findIdx? (fun c => c = lbrace),
        (cs.reverse.findIdx? (fun c => c = rbrace)).map (fun k => cs.length - 1 - k) with
  | some i, some j => if i < j then some (String.mk ((cs.drop i).take (j - i + 1))) else none
  | _, _ => none

/-- The untrusted proposer action shape (`AIAction` in `types.ts`); `x` and
`y` are absent when the JSON had no numeric field there. -/
structure AIAction where
  action : String
  buildingType : Option BuildingType := none
  x : Option ℤ := none
  y : Option ℤ := none
  reasoning : Option String := none
  failedAttempt : Option (ℤ × ℤ) := none
deriving DecidableEq

/-- The fallback `mockGameAction` — the deterministic offline WAIT action. -/
def mockGameAction (stats : CityStats) : AIAction :=
  { action := "WAIT", buildingType := none, x := some 0, y := some 0,
    reasoning := some "AI is offline (Mock Mode). Holding position." }

/-- The function `generateGameAction` from the AI service, with its effectful pieces passed
in: `attempts` gives the fetch outcomes consumed by `callLocalAI`, and
`parseJson` stands for `JSON.parse` on the extracted string (`none` when it
throws).  Prompt construction (context, valid-move sampling from
`recentFailures`) only affects the request text, never the control flow, and
is not modelled. -/
def generateGameAction (attempts : ℕ → FetchOutcome)
    (parseJson : String → Option AIAction) (stats : CityStats)
    {H W : ℕ} (grid : SimGrid H W) (recentFailures : List (ℤ × ℤ)) : AIAction :=
  match callLocalAI attempts with
  | none => mockGameAction stats
  | some content =>
    match extractBracedMatch content with
    | none => mockGameAction stats
    | some jsonStr =>
      match parseJson jsonStr with
      | none => mockGameAction stats
      | some action =>
        -- ENFORCEMENT LAYER: block builds on occupied tiles, forcing WAIT
        if action.action = "BUILD" then
          match action.x, action.y with
          | some xq, some yq =>
            if h : 0 ≤ xq ∧ xq < (W : ℤ) ∧ 0 ≤ yq ∧ yq < (H : ℤ) then
              if (grid ⟨yq.toNat, by omega⟩ ⟨xq.toNat, by omega⟩).buildingType
                  ≠ BuildingType.None then
                { action := "WAIT", buildingType := none, x := some 0, y := some 0,
                  reasoning := some "Surveyors found site occupied. Conserving funds.",
                  failedAttempt := some (xq, yq) }
              else action
            else action
          | _, _ => action
        else action

theorem callLocalAILoop_success {attempts : ℕ → FetchOutcome} :
    ∀ (fuel i : ℕ) (c : String), callLocalAILoop attempts i fuel = some c →
      ∃ j, attempts j = FetchOutcome.success c := by
  intro fuel
  induction fuel with
  | zero => intro i c h; exact absurd h (by simp [callLocalAILoop])
  | succ fuel ih =>
    intro i c h
    unfold callLocalAILoop at h
    split at h
    next content heq => exact ⟨i, by rw [heq, Option.some_inj.mp h]⟩
    next status heq =>
      split_ifs at h with h1
      exact ih (i + 1) c h
    next heq =>
      split_ifs at h with h1
      exact ih (i + 1) c h

/-- C9: whenever the proposer call fails — every fetch attempt raises or
returns non-2xx (so the bounded retry is exhausted and `callLocalAI` yields
`null`), or any successful response body contains no extractable JSON object —
the action generator returns exactly the deterministic offline fallback: the
WAIT action carrying the offline-marker reasoning string.  It never returns
an unresolved or malformed action on these paths. -/
theorem generateGameAction_offline_fallback (attempts : ℕ → FetchOutcome)
    (parseJson : String → Option AIAction) (stats : CityStats)
    {H W : ℕ} (grid : SimGrid H W) (recentFailures : List (ℤ × ℤ))
    (h : ∀ i c, attempts i = FetchOutcome.success c → extractBracedMatch c = none) :
    generateGameAction attempts parseJson stats grid recentFailures
      = mockGameAction stats ∧
    (generateGameAction attempts parseJson stats grid recentFailures).action = "WAIT" ∧
    (generateGameAction attempts parseJson stats grid recentFailures).reasoning
      = some "AI is offline (Mock Mode). Holding position." := by
  have hmain : generateGameAction attempts parseJson stats grid recentFailures
      = mockGameAction stats := by
    rcases hcall : callLocalAI attempts with _ | c
    · unfold generateGameAction
      rw [hcall]
    · obtain ⟨j, hj⟩ := callLocalAILoop_success (MAX_RETRIES + 1) 0 c hcall
      have hex : extractBracedMatch c = none := h j c hj
      unfold generateGameAction
      simp only [hcall, hex]
  exact ⟨hmain, (by rw [hmain]; rfl), (by rw [hmain]; rfl)⟩

theorem generateGameAction_offline_fallback_witness :
    (∀ i c, (fun _ : ℕ => FetchOutcome.exception) i = FetchOutcome.success c →
      extractBracedMatch c = none) ∧
    (generateGameAction (fun _ => FetchOutcome.exception) (fun _ => none) INITIAL_STATS
        (emptySimGrid 1 1) [] = mockGameAction INITIAL_STATS ∧
     (generateGameAction (fun _ => FetchOutcome.exception) (fun _ => none) INITIAL_STATS
        (emptySimGrid 1 1) []).action = "WAIT" ∧
     (generateGameAction (fun _ => FetchOutcome.exception) (fun _ => none) INITIAL_STATS
        (emptySimGrid 1 1) []).reasoning
       = some "AI is offline (Mock Mode). Holding position.") :=
  ⟨(fun i c hic => nomatch hic),
   generateGameAction_offline_fallback (fun _ => FetchOutcome.exception) (fun _ => none)
     INITIAL_STATS (emptySimGrid 1 1) [] (fun i c hic => nomatch hic)⟩

end AgentArbiter

section EnvironmentStepper

/-- JS `Math.round`: round half toward positive infinity. -/
def mathRound (q : ℚ) : ℤ := ⌊q + 1/2⌋

/-- The per-tick pollution retention factor (`simulateEnvironment` B. Decay):
90% by default, 70% on Parks (strongest scrubbing), 95% on Water (pooling). -/
def decayFactor (bt : BuildingType) : ℚ :=
  if bt = BuildingType.Park then 0.70
  else if bt = BuildingType.Water then 0.95
  else 0.90

/-- The pollution of the tile at `c` (`tile.pollution`, with the `|| 0`
default folded into the total field). -/
def pval {H W : ℕ} (g : SimGrid H W) (c : Fin H × Fin W) : ℚ := (g c.1 c.2).pollution

/-- One in-place pollution write `newGrid[ty][tx].pollution = v`: the tile at
`c` keeps every other field, all other tiles are untouched. -/
def writePollution {H W : ℕ} (g : SimGrid H W) (c : Fin H × Fin W) (v : ℚ) :
    SimGrid H W :=
  fun i j => if i = c.1 ∧ j = c.2 then { g c.1 c.2 with pollution := v } else g i j

/-- The trailing sub-threshold check of the loop body:
`if (tile.pollution < 0.5) tile.pollution = 0`. -/
def validateTile {H W : ℕ} (g : SimGrid H W) (c : Fin H × Fin W) : SimGrid H W :=
  if pval g c < 0.5 then writePollution g c 0 else g

/-- Steps A (generation) and B (decay) of the loop body, as the value they
leave in `tile.pollution`: a tile whose building has a nonzero pollution
coefficient first gains twice that coefficient (capped at 100), then the
result is scaled by the retention factor. -/
def genDecayed {H W : ℕ} (g : SimGrid H W) (c : Fin H × Fin W) : ℚ :=
  (if (BUILDINGS (g c.1 c.2).buildingType).pollution ≠ 0
    then min 100 (pval g c + (BUILDINGS (g c.1 c.2).buildingType).pollution * 2)
    else pval g c) * decayFactor (g c.1 c.2).buildingType

/-- One iteration of the pollution loop of `simulateEnvironment` at tile
`c = (y, x)`: generation and decay write `genDecayed` into the tile; then
(C. Advection) when that value exceeds 1, a `0.3 · speed` fraction moves to
the nearest grid cell in the wind direction (`Math.round(x + wind.x)`,
`Math.round(y + wind.y)`) — added to the target first and subtracted from
this tile second, so a self-target nets out exactly as the two aliased
in-place writes do, and mass is simply lost when the target is off-grid —
and finally the sub-threshold flooring on this tile. -/
def processTile (wx wy speed : ℚ) {H W : ℕ} (g : SimGrid H W) (c : Fin H × Fin W) :
    SimGrid H W :=
  let p2 := genDecayed g c
  let gA := writePollution g c p2
  if 1 < p2 then
    let moveAmount := p2 * 0.3 * speed
    let tx := mathRound ((c.2.val : ℚ) + wx)
    let ty := mathRound ((c.1.val : ℚ) + wy)
    if h : 0 ≤ tx ∧ tx < (W : ℤ) ∧ 0 ≤ ty ∧ ty < (H : ℤ) then
      let t : Fin H × Fin W := (⟨ty.toNat, by omega⟩, ⟨tx.toNat, by omega⟩)
      let g1 := writePollution gA t (pval gA t + moveAmount)
      let g2 := writePollution g1 c (pval g1 c - moveAmount)
      validateTile g2 c
    else
      -- Blown off map
      validateTile (writePollution gA c (pval gA c - moveAmount)) c
  else validateTile gA c

/-- The pollution pass of `simulateEnvironment` (its step 2, the nested
row-major loops over the copied grid).  The wind random walk of step 1 is
randomized and trigonometric, so the (possibly updated) wind vector
`(wx, wy)` and wind speed are taken as inputs. -/
def simulateEnvironment (wx wy speed : ℚ) {H W : ℕ} (g : SimGrid H W) : SimGrid H W :=
  (gridCoords H W).foldl (fun gr c => processTile wx wy speed gr c) g

/-- Sum of the per-tile pollution over a list of coordinates. -/
def sumOver {H W : ℕ} (l : List (Fin H × Fin W)) (g : SimGrid H W) : ℚ :=
  (l.map fun c => pval g c).sum

/-- The total pollution mass of the grid. -/
def totalPollution {H W : ℕ} (g : SimGrid H W) : ℚ := sumOver (gridCoords H W) g

/-- Every tile's pollution is nonnegative (the data-model invariant). -/
def NonnegPollution {H W : ℕ} (g : SimGrid H W) : Prop :=
  ∀ c : Fin H × Fin W, 0 ≤ pval g c

/-- No tile's building type has a positive pollution coefficient. -/
def NoPollutionSources {H W : ℕ} (g : SimGrid H W) : Prop :=
  ∀ c : Fin H × Fin W, (BUILDINGS (g c.1 c.2).buildingType).pollution ≤ 0

instance {H W : ℕ} (g : SimGrid H W) : Decidable (NonnegPollution g) := by
  unfold NonnegPollution; infer_instance

instance {H W : ℕ} (g : SimGrid H W) : Decidable (NoPollutionSources g) := by
  unfold NoPollutionSources; infer_instance

/-- Repeated Environment Stepper calls, with per-call wind and speed. -/
def envIterate (wxs wys speeds : ℕ → ℚ) {H W : ℕ} (g : SimGrid H W) : ℕ → SimGrid H W
  | 0 => g
  | n + 1 => simulateEnvironment (wxs n) (wys n) (speeds n) (envIterate wxs wys speeds g n)

theorem pval_writePollution {H W : ℕ} (g : SimGrid H W) (c c' : Fin H × Fin W) (v : ℚ) :
    pval (writePollution g c v) c' = if c' = c then v else pval g c' := by
  unfold pval writePollution
  rcases c with ⟨cy, cx⟩
  rcases c' with ⟨dy, dx⟩
  by_cases h : (dy, dx) = (cy, cx)
  · rw [if_pos h]
    obtain ⟨h1, h2⟩ := Prod.mk.injEq .. ▸ h
    subst h1; subst h2
    rw [if_pos ⟨rfl, rfl⟩]
  · rw [if_neg h]
    rw [Prod.mk.injEq] at h
    have : ¬ (dy = cy ∧ dx = cx) := h
    rw [if_neg this]

theorem buildingType_writePollution {H W : ℕ} (g : SimGrid H W) (c : Fin H × Fin W)
    (v : ℚ) (i : Fin H) (j : Fin W) :
    ((writePollution g c v) i j).buildingType = (g i j).buildingType := by
  unfold writePollution
  split_ifs with h
  · obtain ⟨h1, h2⟩ := h
    subst h1; subst h2
    rfl
  · rfl

theorem sumOver_cons {H W : ℕ} (c : Fin H × Fin W) (l : List (Fin H × Fin W))
    (g : SimGrid H W) : sumOver (c :: l) g = pval g c + sumOver l g := by
  simp [sumOver]

/-- Number of occurrences of a coordinate in a coordinate list. -/
def ccount {H W : ℕ} (c : Fin H × Fin W) (l : List (Fin H × Fin W)) : ℕ :=
  (l.filter fun a => a = c).length

theorem ccount_nil {H W : ℕ} (c : Fin H × Fin W) : ccount c [] = 0 := rfl

theorem ccount_cons {H W : ℕ} (c a : Fin H × Fin W) (l : List (Fin H × Fin W)) :
    ccount c (a :: l) = ccount c l + if a = c then 1 else 0 := by
  unfold ccount
  by_cases h : a = c
  · rw [if_pos h, List.filter_cons_of_pos (by simp [h]), List.length_cons]
  · rw [if_neg h, List.filter_cons_of_neg (by simp [h])]
    omega

theorem ccount_eq_zero_of_not_mem {H W : ℕ} {c : Fin H × Fin W}
    {l : List (Fin H × Fin W)} (h : c ∉ l) : ccount c l = 0 := by
  induction l with
  | nil => rfl
  | cons a l ih =>
    rw [ccount_cons, ih (fun hm => h (List.mem_cons_of_mem a hm)),
      if_neg (fun ha : a = c => h (ha ▸ List.mem_cons_self a l))]

theorem ccount_eq_one_of_nodup_mem {H W : ℕ} {c : Fin H × Fin W}
    {l : List (Fin H × Fin W)} (hn : l.Nodup) (hm : c ∈ l) : ccount c l = 1 := by
  induction l with
  | nil => cases hm
  | cons a l ih =>
    obtain ⟨hna, hnl⟩ := List.nodup_cons.mp hn
    rcases List.mem_cons.mp hm with rfl | hm2
    · rw [ccount_cons, ccount_eq_zero_of_not_mem hna, if_pos rfl]
    · rw [ccount_cons, ih hnl hm2,
        if_neg (fun ha : a = c => hna (ha ▸ hm2))]

theorem sumOver_write {H W : ℕ} (l : List (Fin H × Fin W)) (g : SimGrid H W)
    (c : Fin H × Fin W) (v : ℚ) :
    sumOver l (writePollution g c v) = sumOver l g + (ccount c l : ℚ) * (v - pval g c) := by
  induction l with
  | nil => simp [sumOver, ccount_nil]
  | cons a l ih =>
    rw [sumOver_cons, sumOver_cons, ih, pval_writePollution, ccount_cons]
    by_cases ha : a = c
    · subst ha
      rw [if_pos rfl, if_pos rfl]
      push_cast
      ring
    · rw [if_neg ha, if_neg ha]
      push_cast
      ring

theorem pval_validateTile {H W : ℕ} (g : SimGrid H W) (c c' : Fin H × Fin W) :
    pval (validateTile g c) c' =
      if pval g c < 0.5 then (if c' = c then 0 else pval g c') else pval g c' := by
  unfold validateTile
  split_ifs with h h1 h1 <;> try rfl
  · rw [pval_writePollution, if_pos h1]
  · rw [pval_writePollution, if_neg h1]

theorem buildingType_validateTile {H W : ℕ} (g : SimGrid H W) (c : Fin H × Fin W)
    (i : Fin H) (j : Fin W) :
    ((validateTile g c) i j).buildingType = (g i j).buildingType := by
  unfold validateTile
  split_ifs with h
  · exact buildingType_writePollution g c 0 i j
  · rfl

theorem sumOver_validateTile {H W : ℕ} (l : List (Fin H × Fin W)) (g : SimGrid H W)
    (c : Fin H × Fin W) :
    sumOver l (validateTile g c) =
      if pval g c < 0.5 then sumOver l g + (ccount c l : ℚ) * (0 - pval g c)
      else sumOver l g := by
  unfold validateTile
  split_ifs with h
  · exact sumOver_write l g c 0
  · rfl

theorem mem_gridCoords {H W : ℕ} (c : Fin H × Fin W) : c ∈ gridCoords H W := by
  rcases c with ⟨y, x⟩
  unfold gridCoords
  rw [List.mem_flatMap]
  exact ⟨y, List.mem_finRange y, List.mem_map.mpr ⟨x, List.mem_finRange x, rfl⟩⟩

theorem nodup_gridCoords {H W : ℕ} : (gridCoords H W).Nodup := by
  have h : gridCoords H W = List.finRange H ×ˢ List.finRange W := rfl
  rw [h]
  exact (List.nodup_finRange H).product (List.nodup_finRange W)

theorem ccount_gridCoords {H W : ℕ} (c : Fin H × Fin W) : ccount c (gridCoords H W) = 1 :=
  ccount_eq_one_of_nodup_mem nodup_gridCoords (mem_gridCoords c)

theorem decayFactor_pos (bt : BuildingType) : 0 < decayFactor bt := by
  unfold decayFactor
  split_ifs <;> norm_num

theorem decayFactor_le (bt : BuildingType) : decayFactor bt ≤ 19/20 := by
  unfold decayFactor
  split_ifs <;> norm_num

theorem genDecayed_le_of_pos {H W : ℕ} (g : SimGrid H W) (c : Fin H × Fin W)
    (hsrc : (BUILDINGS (g c.1 c.2).buildingType).pollution ≤ 0)
    (hp : 0 ≤ pval g c) (hpos : 0 < genDecayed g c) :
    genDecayed g c ≤ 19/20 * pval g c := by
  have hd0 := decayFactor_pos (g c.1 c.2).buildingType
  have hd1 := decayFactor_le (g c.1 c.2).buildingType
  unfold genDecayed at hpos ⊢
  split_ifs with hne
  · have hq : min 100 (pval g c + (BUILDINGS (g c.1 c.2).buildingType).pollution * 2)
        ≤ pval g c := le_trans (min_le_right _ _) (by linarith)
    have hqpos : 0 < min 100 (pval g c + (BUILDINGS (g c.1 c.2).buildingType).pollution * 2) := by
      by_contra hcon
      push_neg at hcon
      rw [if_pos hne] at hpos
      nlinarith
    nlinarith
  · nlinarith

theorem genDecayed_lt_half {H W : ℕ} (g : SimGrid H W) (c : Fin H × Fin W)
    (hsrc : (BUILDINGS (g c.1 c.2).buildingType).pollution ≤ 0)
    (hp : 0 ≤ pval g c) (hsmall : pval g c < 1/2) :
    genDecayed g c < 1/2 := by
  have hd0 := decayFactor_pos (g c.1 c.2).buildingType
  have hd1 := decayFactor_le (g c.1 c.2).buildingType
  unfold genDecayed
  split_ifs with hne
  · have hq : min 100 (pval g c + (BUILDINGS (g c.1 c.2).buildingType).pollution * 2)
        ≤ pval g c := le_trans (min_le_right _ _) (by linarith)
    rcases le_or_lt 0 (min 100 (pval g c + (BUILDINGS (g c.1 c.2).buildingType).pollution * 2))
      with hq0 | hq0
    · nlinarith
    · nlinarith
  · nlinarith

theorem processTile_buildingType (wx wy speed : ℚ) {H W : ℕ} (g : SimGrid H W)
    (c : Fin H × Fin W) (i : Fin H) (j : Fin W) :
    ((processTile wx wy speed g c) i j).buildingType = (g i j).buildingType := by
  simp only [processTile]
  split_ifs with h1 h2 <;>
    simp only [buildingType_validateTile, buildingType_writePollution]

set_option maxHeartbeats 2000000 in
theorem processTile_nonneg (wx wy speed : ℚ) {H W : ℕ} (g : SimGrid H W)
    (c : Fin H × Fin W) (hs0 : 0 ≤ speed) (hs1 : speed ≤ 1)
    (hnn : NonnegPollution g) :
    NonnegPollution (processTile wx wy speed g c) := by
  intro c'
  have hp : 0 ≤ pval g c := hnn c
  simp only [processTile]
  split_ifs with h1 h2
  · have hP0 : (0 : ℚ) < genDecayed g c := by linarith
    have hM0 : 0 ≤ genDecayed g c * 0.3 * speed := by positivity
    have hM1 : genDecayed g c * 0.3 * speed ≤ genDecayed g c := by nlinarith
    rw [pval_validateTile]
    simp only [pval_writePollution, eq_self_iff_true, if_true]
    split_ifs <;> first
      | exact hnn _
      | exact le_refl 0
      | exact add_nonneg (hnn _) hM0
      | linarith
      | (exfalso; simp_all)
  · have hP0 : (0 : ℚ) < genDecayed g c := by linarith
    have hM0 : 0 ≤ genDecayed g c * 0.3 * speed := by positivity
    have hM1 : genDecayed g c * 0.3 * speed ≤ genDecayed g c := by nlinarith
    rw [pval_validateTile]
    simp only [pval_writePollution, eq_self_iff_true, if_true]
    split_ifs <;> first
      | exact hnn _
      | exact le_refl 0
      | linarith
      | (exfalso; simp_all)
  · rw [pval_validateTile]
    simp only [pval_writePollution, eq_self_iff_true, if_true]
    split_ifs <;> first
      | exact hnn _
      | exact le_refl 0
      | linarith
      | (exfalso; simp_all)

/-- The grid state written by the in-grid advection branch: generation/decay
value `P` at `c`, then `M` added at the target `t`, then `M` subtracted at
`c` (in that order, exactly as the two aliased writes execute). -/
def advectWrite {H W : ℕ} (g : SimGrid H W) (c t : Fin H × Fin W) (P M : ℚ) :
    SimGrid H W :=
  writePollution
    (writePollution (writePollution g c P) t (pval (writePollution g c P) t + M)) c
    (pval (writePollution (writePollution g c P) t (pval (writePollution g c P) t + M)) c
      - M)

theorem advect_potential_aux {H W : ℕ} (g : SimGrid H W) (c t : Fin H × Fin W)
    (cs : List (Fin H × Fin W)) (P M : ℚ) (hc : c ∉ cs) (hp : 0 ≤ pval g c)
    (hM0 : 0 ≤ M) (hM1 : M ≤ P) (hPle : P ≤ 19/20 * pval g c) :
    sumOver (gridCoords H W) (validateTile (advectWrite g c t P M) c) -
      1/20 * sumOver cs (validateTile (advectWrite g c t P M) c) ≤
    sumOver (gridCoords H W) g - 1/20 * (pval g c + sumOver cs g) := by
  have hccs : (ccount c cs : ℚ) = 0 := by
    rw [ccount_eq_zero_of_not_mem hc]; norm_num
  have hk0 : (0 : ℚ) ≤ (ccount t cs : ℚ) := by positivity
  have hkM : 0 ≤ (ccount t cs : ℚ) * M := mul_nonneg hk0 hM0
  by_cases hT : t = c
  · subst hT
    unfold advectWrite
    rw [sumOver_validateTile, sumOver_validateTile]
    simp only [pval_writePollution, eq_self_iff_true, if_true, sumOver_write,
      ccount_gridCoords, Nat.cast_one, hccs, zero_mul, add_zero, one_mul]
    split_ifs with hv
    · linarith
    · linarith
  · have h1 : (c = t) = False := eq_false (fun hh => hT hh.symm)
    have h2 : (t = c) = False := eq_false hT
    unfold advectWrite
    rw [sumOver_validateTile, sumOver_validateTile]
    simp only [pval_writePollution, eq_self_iff_true, if_true, h1, h2, if_false,
      sumOver_write, ccount_gridCoords, Nat.cast_one, hccs, zero_mul, add_zero, one_mul]
    split_ifs with hv
    · linarith
    · linarith

set_option maxHeartbeats 2000000 in
theorem processTile_potential (wx wy speed : ℚ) {H W : ℕ} (g : SimGrid H W)
    (c : Fin H × Fin W) (cs : List (Fin H × Fin W)) (hc : c ∉ cs)
    (hs0 : 0 ≤ speed) (hs1 : speed ≤ 1)
    (hsrc : (BUILDINGS (g c.1 c.2).buildingType).pollution ≤ 0)
    (hnn : NonnegPollution g) :
    totalPollution (processTile wx wy speed g c) -
      1/20 * sumOver cs (processTile wx wy speed g c) ≤
    totalPollution g - 1/20 * (pval g c + sumOver cs g) := by
  have hp : 0 ≤ pval g c := hnn c
  have hccs : (ccount c cs : ℚ) = 0 := by
    rw [ccount_eq_zero_of_not_mem hc]; norm_num
  simp only [processTile, totalPollution]
  split_ifs with h1 h2
  · -- C. Advection into a target inside the grid
    have hP0 : (0 : ℚ) < genDecayed g c := by linarith
    have hM0 : 0 ≤ genDecayed g c * 0.3 * speed := by positivity
    have hM1 : genDecayed g c * 0.3 * speed ≤ genDecayed g c := by nlinarith
    have hPle := genDecayed_le_of_pos g c hsrc hp hP0
    exact advect_potential_aux g c _ cs _ _ hc hp hM0 hM1 hPle
  · -- C. Advection blown off the map
    have hP0 : (0 : ℚ) < genDecayed g c := by linarith
    have hM0 : 0 ≤ genDecayed g c * 0.3 * speed := by positivity
    have hM1 : genDecayed g c * 0.3 * speed ≤ genDecayed g c := by nlinarith
    have hPle := genDecayed_le_of_pos g c hsrc hp hP0
    rw [sumOver_validateTile, sumOver_validateTile]
    simp only [pval_writePollution, eq_self_iff_true, if_true, sumOver_write,
      ccount_gridCoords, Nat.cast_one, hccs, zero_mul, add_zero, one_mul]
    split_ifs with hv
    · linarith
    · linarith
  · -- no advection
    rw [sumOver_validateTile, sumOver_validateTile]
    simp only [pval_writePollution, eq_self_iff_true, if_true, sumOver_write,
      ccount_gridCoords, Nat.cast_one, hccs, zero_mul, add_zero, one_mul]
    split_ifs with hv
    · linarith
    · have hle := genDecayed_le_of_pos g c hsrc hp (by linarith)
      linarith

theorem foldl_processTile_bound (wx wy speed : ℚ) {H W : ℕ}
    (rem : List (Fin H × Fin W)) :
    ∀ g : SimGrid H W, rem.Nodup → 0 ≤ speed → speed ≤ 1 →
      NoPollutionSources g → NonnegPollution g →
      totalPollution (rem.foldl (fun gr c => processTile wx wy speed gr c) g) ≤
        totalPollution g - 1/20 * sumOver rem g ∧
      NonnegPollution (rem.foldl (fun gr c => processTile wx wy speed gr c) g) ∧
      (∀ (i : Fin H) (j : Fin W),
        ((rem.foldl (fun gr c => processTile wx wy speed gr c) g) i j).buildingType
          = (g i j).buildingType) := by
  induction rem with
  | nil =>
    intro g _ _ _ _ hnn
    refine ⟨?_, hnn, fun i j => rfl⟩
    simp [sumOver]
  | cons c cs ih =>
    intro g hn hs0 hs1 hsrc hnn
    obtain ⟨hc, hcs⟩ := List.nodup_cons.mp hn
    have hbt := processTile_buildingType wx wy speed g c
    have hnn2 := processTile_nonneg wx wy speed g c hs0 hs1 hnn
    have hsrc2 : NoPollutionSources (processTile wx wy speed g c) := by
      intro c'
      rw [hbt c'.1 c'.2]
      exact hsrc c'
    have hstep := processTile_potential wx wy speed g c cs hc hs0 hs1 (hsrc c) hnn
    obtain ⟨iht, ihn, ihb⟩ := ih (processTile wx wy speed g c) hcs hs0 hs1 hsrc2 hnn2
    rw [List.foldl_cons]
    refine ⟨?_, ihn, fun i j => (ihb i j).trans (hbt i j)⟩
    rw [sumOver_cons]
    linarith

/-- One Environment Stepper call contracts the total pollution mass by at
least 5% when the grid has no pollution sources, and it preserves
nonnegativity of every tile and every tile's building type. -/
theorem simulateEnvironment_contracts (wx wy speed : ℚ) {H W : ℕ} (g : SimGrid H W)
    (hs0 : 0 ≤ speed) (hs1 : speed ≤ 1)
    (hsrc : NoPollutionSources g) (hnn : NonnegPollution g) :
    totalPollution (simulateEnvironment wx wy speed g) ≤ 19/20 * totalPollution g ∧
    NonnegPollution (simulateEnvironment wx wy speed g) ∧
    (∀ (i : Fin H) (j : Fin W),
      ((simulateEnvironment wx wy speed g) i j).buildingType = (g i j).buildingType) := by
  obtain ⟨ht, hn, hb⟩ := foldl_processTile_bound wx wy speed (gridCoords H W) g
    nodup_gridCoords hs0 hs1 hsrc hnn
  have heq : sumOver (gridCoords H W) g = totalPollution g := rfl
  refine ⟨?_, hn, hb⟩
  rw [heq] at ht
  calc totalPollution (simulateEnvironment wx wy speed g)
      = totalPollution ((gridCoords H W).foldl
          (fun gr c => processTile wx wy speed gr c) g) := rfl
    _ ≤ totalPollution g - 1/20 * totalPollution g := ht
    _ = 19/20 * totalPollution g := by ring

theorem totalPollution_nonneg {H W : ℕ} (g : SimGrid H W) (hnn : NonnegPollution g) :
    0 ≤ totalPollution g := by
  refine List.sum_nonneg ?_
  intro q hq
  obtain ⟨c, -, rfl⟩ := List.mem_map.mp hq
  exact hnn c

theorem pval_le_total {H W : ℕ} (g : SimGrid H W) (hnn : NonnegPollution g)
    (c : Fin H × Fin W) : pval g c ≤ totalPollution g := by
  refine List.single_le_sum ?_ _ (List.mem_map.mpr ⟨c, mem_gridCoords c, rfl⟩)
  intro q hq
  obtain ⟨c', -, rfl⟩ := List.mem_map.mp hq
  exact hnn c'

theorem processTile_small (wx wy speed : ℚ) {H W : ℕ} (g : SimGrid H W)
    (c : Fin H × Fin W)
    (hsrc : (BUILDINGS (g c.1 c.2).buildingType).pollution ≤ 0)
    (hp : 0 ≤ pval g c) (hsm : pval g c < 1/2) (c' : Fin H × Fin W) :
    pval (processTile wx wy speed g c) c' = if c' = c then 0 else pval g c' := by
  have hP := genDecayed_lt_half g c hsrc hp hsm
  have hP05 : genDecayed g c < 0.5 := by
    rw [show (0.5 : ℚ) = 1/2 by norm_num]
    exact hP
  simp only [processTile]
  rw [if_neg (by linarith)]
  rw [pval_validateTile]
  simp only [pval_writePollution, eq_self_iff_true, if_true]
  rw [if_pos hP05]
  by_cases hcc : c' = c
  · rw [if_pos hcc, if_pos hcc]
  · rw [if_neg hcc, if_neg hcc, if_neg hcc]

theorem foldl_processTile_small (wx wy speed : ℚ) {H W : ℕ}
    (rem : List (Fin H × Fin W)) :
    ∀ g : SimGrid H W, rem.Nodup → NoPollutionSources g → NonnegPollution g →
      (∀ c, pval g c < 1/2) → ∀ c' : Fin H × Fin W,
      pval (rem.foldl (fun gr c => processTile wx wy speed gr c) g) c'
        = if c' ∈ rem then 0 else pval g c' := by
  induction rem with
  | nil =>
    intro g _ _ _ _ c'
    simp
  | cons c cs ih =>
    intro g hn hsrc hnn hsm c'
    obtain ⟨hc, hcs⟩ := List.nodup_cons.mp hn
    have hchar := processTile_small wx wy speed g c (hsrc c) (hnn c) (hsm c)
    have hbt := processTile_buildingType wx wy speed g c
    have hsrc2 : NoPollutionSources (processTile wx wy speed g c) := by
      intro d
      rw [hbt d.1 d.2]
      exact hsrc d
    have hnn2 : NonnegPollution (processTile wx wy speed g c) := by
      intro d
      rw [hchar d]
      split_ifs
      · exact le_refl 0
      · exact hnn d
    have hsm2 : ∀ d, pval (processTile wx wy speed g c) d < 1/2 := by
      intro d
      rw [hchar d]
      split_ifs
      · norm_num
      · exact hsm d
    rw [List.foldl_cons, ih (processTile wx wy speed g c) hcs hsrc2 hnn2 hsm2 c',
      hchar c']
    by_cases h1 : c' ∈ cs
    · rw [if_pos h1, if_pos (List.mem_cons_of_mem c h1)]
    · rw [if_neg h1]
      by_cases h2 : c' = c
      · rw [if_pos h2, if_pos (List.mem_cons.mpr (Or.inl h2))]
      · rw [if_neg h2, if_neg (fun hm => by
          rcases List.mem_cons.mp hm with hm1 | hm2
          · exact h2 hm1
          · exact h1 hm2)]

/-- Once the total mass is below the 0.5 flooring threshold, a single call
zeroes every tile. -/
theorem simulateEnvironment_small (wx wy speed : ℚ) {H W : ℕ} (g : SimGrid H W)
    (hsrc : NoPollutionSources g) (hnn : NonnegPollution g)
    (hsm : totalPollution g < 1/2) (c' : Fin H × Fin W) :
    pval (simulateEnvironment wx wy speed g) c' = 0 := by
  have hsmall : ∀ c, pval g c < 1/2 := fun c => lt_of_le_of_lt (pval_le_total g hnn c) hsm
  have h := foldl_processTile_small wx wy speed (gridCoords H W) g nodup_gridCoords
    hsrc hnn hsmall c'
  rw [if_pos (mem_gridCoords c')] at h
  exact h

theorem totalPollution_eq_zero {H W : ℕ} (g : SimGrid H W)
    (h : ∀ c : Fin H × Fin W, pval g c = 0) : totalPollution g = 0 := by
  refine List.sum_eq_zero ?_
  intro q hq
  obtain ⟨c, -, rfl⟩ := List.mem_map.mp hq
  exact h c

/-- C6: over any grid with no positive pollution coefficient, any wind
history and any speed history within the source's clamp range, the total
per-tile pollution mass never increases from one Environment Stepper call to
the next, and after finitely many calls it is exactly 0 forever (each whole
call contracts the mass by at least 5%, and once the mass is below the 0.5
flooring threshold one further call floors every tile to zero). -/
theorem simulateEnvironment_pollution_decay {H W : ℕ} (g0 : SimGrid H W)
    (wxs wys speeds : ℕ → ℚ)
    (hs : ∀ n, 0 ≤ speeds n ∧ speeds n ≤ 1)
    (hsrc : NoPollutionSources g0) (hnn : NonnegPollution g0) :
    (∀ n, totalPollution (envIterate wxs wys speeds g0 (n + 1)) ≤
       totalPollution (envIterate wxs wys speeds g0 n)) ∧
    (∃ N, ∀ n, N ≤ n → totalPollution (envIterate wxs wys speeds g0 n) = 0) := by
  have hinv : ∀ n, NoPollutionSources (envIterate wxs wys speeds g0 n) ∧
      NonnegPollution (envIterate wxs wys speeds g0 n) := by
    intro n
    induction n with
    | zero => exact ⟨hsrc, hnn⟩
    | succ n ihn =>
      obtain ⟨hsrcn, hnnn⟩ := ihn
      obtain ⟨-, hn2, hb2⟩ := simulateEnvironment_contracts (wxs n) (wys n) (speeds n)
        (envIterate wxs wys speeds g0 n) (hs n).1 (hs n).2 hsrcn hnnn
      refine ⟨?_, hn2⟩
      intro c
      show (BUILDINGS ((simulateEnvironment (wxs n) (wys n) (speeds n)
        (envIterate wxs wys speeds g0 n)) c.1 c.2).buildingType).pollution ≤ 0
      rw [hb2 c.1 c.2]
      exact hsrcn c
  have hstep : ∀ n, totalPollution (envIterate wxs wys speeds g0 (n + 1)) ≤
      19/20 * totalPollution (envIterate wxs wys speeds g0 n) := fun n =>
    (simulateEnvironment_contracts (wxs n) (wys n) (speeds n)
      (envIterate wxs wys speeds g0 n) (hs n).1 (hs n).2 (hinv n).1 (hinv n).2).1
  constructor
  · intro n
    have h0 := totalPollution_nonneg _ (hinv n).2
    linarith [hstep n]
  · have hgeo : ∀ n, totalPollution (envIterate wxs wys speeds g0 n) ≤
        (19/20 : ℚ) ^ n * totalPollution g0 := by
      intro n
      induction n with
      | zero => simp [envIterate]
      | succ n ihn =>
        have hmul : (19/20 : ℚ) * totalPollution (envIterate wxs wys speeds g0 n) ≤
            (19/20 : ℚ) * ((19/20 : ℚ) ^ n * totalPollution g0) := by
          have h20 : (0 : ℚ) ≤ 19/20 := by norm_num
          exact mul_le_mul_of_nonneg_left ihn h20
        calc totalPollution (envIterate wxs wys speeds g0 (n + 1))
            ≤ 19/20 * totalPollution (envIterate wxs wys speeds g0 n) := hstep n
          _ ≤ (19/20 : ℚ) * ((19/20 : ℚ) ^ n * totalPollution g0) := hmul
          _ = (19/20 : ℚ) ^ (n + 1) * totalPollution g0 := by ring
    have hT0 : 0 ≤ totalPollution g0 := totalPollution_nonneg g0 hnn
    obtain ⟨N, hN⟩ := exists_pow_lt_of_lt_one
      (show (0 : ℚ) < (1/2) / (totalPollution g0 + 1) by positivity)
      (show (19 : ℚ)/20 < 1 by norm_num)
    have hsmallN : totalPollution (envIterate wxs wys speeds g0 N) < 1/2 := by
      have h1 := hgeo N
      have hpow : (0 : ℚ) ≤ (19/20 : ℚ) ^ N := by positivity
      have h2 : (19/20 : ℚ) ^ N * totalPollution g0 ≤
          (19/20 : ℚ) ^ N * (totalPollution g0 + 1) := by nlinarith
      have h3 : (19/20 : ℚ) ^ N * (totalPollution g0 + 1) <
          ((1/2) / (totalPollution g0 + 1)) * (totalPollution g0 + 1) :=
        mul_lt_mul_of_pos_right hN (by positivity)
      have h4 : ((1/2 : ℚ) / (totalPollution g0 + 1)) * (totalPollution g0 + 1) = 1/2 :=
        div_mul_cancel₀ _ (by positivity)
      linarith
    refine ⟨N + 1, ?_⟩
    have hzero : ∀ n, N + 1 ≤ n → ∀ c, pval (envIterate wxs wys speeds g0 n) c = 0 := by
      intro n hn
      induction n, hn using Nat.le_induction with
      | base =>
        exact fun c => simulateEnvironment_small (wxs N) (wys N) (speeds N)
          (envIterate wxs wys speeds g0 N) (hinv N).1 (hinv N).2 hsmallN c
      | succ n hn ihn =>
        intro c
        have htot : totalPollution (envIterate wxs wys speeds g0 n) = 0 :=
          totalPollution_eq_zero _ ihn
        exact simulateEnvironment_small (wxs n) (wys n) (speeds n)
          (envIterate wxs wys speeds g0 n) (hinv n).1 (hinv n).2 (by rw [htot]; norm_num) c
    intro n hn
    exact totalPollution_eq_zero _ (hzero n hn)

/-- A 2×2 all-land grid with pollution 3 on every tile. -/
def c6Grid : SimGrid 2 2 := fun y x =>
  { x := (x.val : ℤ), y := (y.val : ℤ), buildingType := BuildingType.None,
    pollution := 3 }

unseal Rat.inv Rat.mul Rat.add Rat.sub Rat.ofScientific in
theorem simulateEnvironment_pollution_decay_witness :
    (∀ n : ℕ, 0 ≤ (fun _ : ℕ => (1/2 : ℚ)) n ∧ (fun _ : ℕ => (1/2 : ℚ)) n ≤ 1) ∧
    NoPollutionSources c6Grid ∧ NonnegPollution c6Grid ∧
    ((∀ n, totalPollution
        (envIterate (fun _ => 1) (fun _ => 0) (fun _ => 1/2) c6Grid (n + 1)) ≤
      totalPollution (envIterate (fun _ => 1) (fun _ => 0) (fun _ => 1/2) c6Grid n)) ∧
     (∃ N, ∀ n, N ≤ n → totalPollution
        (envIterate (fun _ => 1) (fun _ => 0) (fun _ => 1/2) c6Grid n) = 0)) :=
  ⟨(fun _ => ⟨by norm_num, by norm_num⟩), by decide, by decide,
   simulateEnvironment_pollution_decay c6Grid (fun _ => 1) (fun _ => 0) (fun _ => 1/2)
     (fun _ => ⟨by norm_num, by norm_num⟩) (by decide) (by decide)⟩

end EnvironmentStepper
